import Mathlib

/-!
Shallow embedding of the `libisg` crate (an ISG-format reader/writer):
the data model (`lib.rs`), the tokenizer (`token.rs`), the parser
(`parse.rs`), the serializer (`display.rs`) and the validator
(`validation.rs`), together with theorems settling the specification
claims about them.

Rust `f64` values are modelled as exact rationals (`Rat`): decimal
literals are kept exactly, no rounding to binary is performed.  All
strings relevant to the theorems below are ASCII, so `String.length`
agrees with Rust's byte-based `str::len`.
-/

set_option maxRecDepth 100000
set_option maxHeartbeats 4000000

namespace Libisg

/-- Value of `model type` (lib.rs). -/
inductive ModelType
  | Gravimetric
  | Geometric
  | Hybrid
deriving DecidableEq, Repr

/-- Value of `data type` (lib.rs). -/
inductive DataType
  | Geoid
  | QuasiGeoid
deriving DecidableEq, Repr

/-- Value of `data units` (lib.rs). -/
inductive DataUnits
  | Meters
  | Feet
deriving DecidableEq, Repr

/-- Value of `data format` (lib.rs). -/
inductive DataFormat
  | Grid
  | Sparse
deriving DecidableEq, Repr

/-- Value of `data ordering` (lib.rs). -/
inductive DataOrdering
  | N2SW2E
  | LatLonN
  | EastNorthN
  | N
  | Zeta
deriving DecidableEq, Repr

/-- Value of `tide system` (lib.rs). -/
inductive TideSystem
  | TideFree
  | MeanTide
  | ZeroTide
deriving DecidableEq, Repr

/-- Value of `coord type` (lib.rs). -/
inductive CoordType
  | Geodetic
  | Projected
deriving DecidableEq, Repr

/-- Value of `coord units` (lib.rs). -/
inductive CoordUnits
  | DMS
  | Deg
  | Meters
  | Feet
deriving DecidableEq, Repr

/-- Coordinate value (lib.rs `Coord`): sexagesimal DMS (`degree : i16`,
`minutes : u8`, `second : u8`, the ranges being enforced at parse time)
or a decimal. -/
inductive Coord
  | DMS (degree : Int) (minutes : Nat) (second : Nat)
  | Dec (value : Rat)
deriving DecidableEq, Repr

/-- Value of `creation date` (lib.rs `CreationDate`): `year : u16`,
`month : u8`, `day : u8`. -/
structure CreationDate where
  year : Nat
  month : Nat
  day : Nat
deriving DecidableEq, Repr

/-- Bounds and delta fields (lib.rs `DataBounds`). -/
inductive DataBounds
  | GridGeodetic (lat_min lat_max lon_min lon_max delta_lat delta_lon : Coord)
  | GridProjected (north_min north_max east_min east_max delta_north delta_east : Coord)
  | SparseGeodetic (lat_min lat_max lon_min lon_max : Coord)
  | SparseProjected (north_min north_max east_min east_max : Coord)
deriving DecidableEq, Repr

/-- Header section of ISG (lib.rs `Header`). -/
structure Header where
  model_name : Option String
  model_year : Option String
  model_type : Option ModelType
  data_type : Option DataType
  data_units : Option DataUnits
  data_format : DataFormat
  data_ordering : Option DataOrdering
  ref_ellipsoid : Option String
  ref_frame : Option String
  height_datum : Option String
  tide_system : Option TideSystem
  coord_type : CoordType
  coord_units : CoordUnits
  map_projection : Option String
  EPSG_code : Option String
  data_bounds : DataBounds
  nrows : Nat
  ncols : Nat
  nodata : Option Rat
  creation_date : Option CreationDate
  ISG_format : String
deriving DecidableEq, Repr

/-- Data section of ISG (lib.rs `Data`). -/
inductive Data
  | Grid (data : List (List (Option Rat)))
  | Sparse (data : List (Coord × Coord × Rat))
deriving DecidableEq, Repr

/-- ISG document (lib.rs `ISG`). -/
structure ISG where
  comment : String
  header : Header
  data : Data
deriving DecidableEq, Repr

/-- Closed enumeration of header keys (parse.rs `HeaderField`). -/
inductive HeaderField
  | ModelName
  | ModelYear
  | ModelType
  | DataType
  | DataUnits
  | DataFormat
  | DataOrdering
  | RefEllipsoid
  | RefFrame
  | HeightDatum
  | TideSystem
  | CoordType
  | CoordUnits
  | MapProjection
  | EpsgCode
  | LatMin
  | LatMax
  | NorthMin
  | NorthMax
  | LonMin
  | LonMax
  | EastMin
  | EastMax
  | DeltaLat
  | DeltaLon
  | DeltaNorth
  | DeltaEast
  | NRows
  | NCols
  | NoData
  | CreationDate
  | IsgFormat
deriving DecidableEq, Repr

/-- Row/column direction of a data-length error (error.rs `DataDirection`). -/
inductive DataDirection
  | Row
  | Column
deriving DecidableEq, Repr

/-- Too-short versus too-long data (error.rs `InvalidDataLengthKind`). -/
inductive InvalidDataLengthKind
  | Short
  | Long
deriving DecidableEq, Repr

/-- Error cases of parsing (error.rs `ParseErrorKind`); the nested
`ParseValueError` of `InvalidHeaderValue` is carried as the offending
text. -/
inductive ParseErrorKind
  | MissingBeginOfHead
  | MissingEndOfHead
  | MissingSeparator
  | UnknownHeaderKey (value : String)
  | MissingHeaderKey (kind : HeaderField)
  | DuplicatedHeaderKey (kind : HeaderField)
  | InvalidHeaderValue (kind : HeaderField) (source : Option String)
  | InvalidDataBounds (key : HeaderField) (coord_type : CoordType)
  | InvalidData (value : String)
  | InvalidDataLength (kind : InvalidDataLengthKind) (direction : DataDirection) (expected : Nat)
deriving DecidableEq, Repr

/-- Error on parsing ISG format (error.rs `ParseError`); spans are
half-open character ranges of the source line. -/
structure ParseError where
  kind : ParseErrorKind
  span : Option (Nat × Nat)
  lineno : Option Nat
deriving DecidableEq, Repr

namespace ParseError

/-- Constructor mirroring error.rs `ParseError::new`. -/
def mk' (kind : ParseErrorKind) : ParseError :=
  ⟨kind, none, none⟩

/-- Constructor mirroring error.rs `ParseError::with_lineno`. -/
def withLineno (kind : ParseErrorKind) (lineno : Nat) : ParseError :=
  ⟨kind, none, some lineno⟩

/-- Constructor mirroring error.rs `ParseError::with_span_and_lineno`. -/
def withSpanAndLineno (kind : ParseErrorKind) (span : Nat × Nat) (lineno : Nat) : ParseError :=
  ⟨kind, some span, some lineno⟩

end ParseError

/-- Error cases of validation (error.rs `ValidationErrorKind`). -/
inductive ValidationErrorKind
  | DataBounds (data_format : DataFormat) (coord_type : CoordType)
  | CoordUnitsOnHeader (kind : HeaderField)
  | CoordUnitsOnData (lineno : Nat) (column : Nat)
  | NoRow (nrows : Nat) (actual : Nat)
  | NoCols (ncols : Nat) (actual : Option Nat)
  | ISGFormat
deriving DecidableEq, Repr

/-- Error on validation (error.rs `ValidationError`). -/
structure ValidationError where
  kind : ValidationErrorKind
deriving DecidableEq, Repr

instance exceptDecEq {ε α : Type} [DecidableEq ε] [DecidableEq α] : DecidableEq (Except ε α) :=
  fun x y =>
    match x, y with
    | .ok a, .ok b =>
      match decEq a b with
      | isTrue h => isTrue (h ▸ rfl)
      | isFalse h => isFalse fun hh => h (Except.ok.inj hh)
    | .error e, .error f =>
      match decEq e f with
      | isTrue h => isTrue (h ▸ rfl)
      | isFalse h => isFalse fun hh => h (Except.error.inj hh)
    | .ok _, .error _ => isFalse fun h => Except.noConfusion h
    | .error _, .ok _ => isFalse fun h => Except.noConfusion h

/-! ## String primitives

Structural re-implementations of the string operations the Rust code
relies on (`starts_with`, `trim`, `split`, `lines`), so that every
definition below evaluates inside the kernel. -/

/-- Whether `p` is an initial segment of `cs` (Rust `str::starts_with`). -/
def charsStartWith : List Char → List Char → Bool
  | _, [] => true
  | [], _ :: _ => false
  | c :: cs, p :: ps => c = p && charsStartWith cs ps

/-- Rust `str::starts_with` on strings. -/
def strStartsWith (s p : String) : Bool :=
  charsStartWith s.toList p.toList

/-- Whitespace-trimming on characters (Rust `str::trim`). -/
def trimChars (cs : List Char) : List Char :=
  ((cs.dropWhile Char.isWhitespace).reverse.dropWhile Char.isWhitespace).reverse

/-- Rust `str::trim` on strings. -/
def strTrim (s : String) : String :=
  String.mk (trimChars s.toList)

/-- Whether the last character of `s` is `c`. -/
def lastCharIs (s : String) (c : Char) : Bool :=
  match s.toList.reverse with
  | [] => false
  | x :: _ => x = c

/-- Pieces of `cs` delimited by the character `c`, empty pieces kept
(Rust `str::split`). -/
def splitAllChar (c : Char) : List Char → List (List Char)
  | [] => [[]]
  | x :: rest =>
    if x = c then [] :: splitAllChar c rest
    else match splitAllChar c rest with
      | [] => [[x]]
      | p :: ps => (x :: p) :: ps

/-- Rust `str::split_once`: the pieces before and after the first
occurrence of `c`, or `none` when `c` does not occur. -/
def splitOnceChars (c : Char) : List Char → Option (List Char × List Char)
  | [] => none
  | x :: rest =>
    if x = c then some ([], rest)
    else (splitOnceChars c rest).map fun p => (x :: p.1, p.2)

/-- Rust `str::split_once` on strings. -/
def splitOnce (c : Char) (s : String) : Option (String × String) :=
  (splitOnceChars c s.toList).map fun p => (String.mk p.1, String.mk p.2)

/-! ## Numeric grammar and rendering helpers -/

/-- Numeric value of a list of ASCII digits. -/
def digitsToNat (cs : List Char) : Nat :=
  cs.foldl (fun n c => n * 10 + (c.toNat - '0'.toNat)) 0

/-- Unsigned-integer grammar of Rust `FromStr` for a `bits`-wide unsigned
integer: an optional `+`, then one or more ASCII digits, the value lying
below `2 ^ bits`. -/
def parseRustUInt (bits : Nat) (s : String) : Option Nat :=
  let cs := s.toList
  let cs := match cs with
    | '+' :: rest => rest
    | cs => cs
  if cs.isEmpty || !(cs.all Char.isDigit) then none
  else
    let n := digitsToNat cs
    if n < 2 ^ bits then some n else none

/-- Signed-integer grammar of Rust `FromStr` for a `bits`-wide signed
integer: an optional sign, then one or more ASCII digits, the value lying
in `[-2 ^ (bits - 1), 2 ^ (bits - 1))`. -/
def parseRustInt (bits : Nat) (s : String) : Option Int :=
  let cs := s.toList
  let (sign, cs) : Int × List Char := match cs with
    | '+' :: rest => (1, rest)
    | '-' :: rest => (-1, rest)
    | cs => (1, cs)
  if cs.isEmpty || !(cs.all Char.isDigit) then none
  else
    let n : Int := sign * digitsToNat cs
    if -(2 ^ (bits - 1) : Int) ≤ n ∧ n < (2 ^ (bits - 1) : Int) then some n else none

/-- Exponent-and-rest of the Rust float grammar: an optional sign then one
or more digits filling the whole remainder. -/
def parseSignedDigits (cs : List Char) : Option Int :=
  let (sign, cs) : Int × List Char := match cs with
    | '+' :: rest => (1, rest)
    | '-' :: rest => (-1, rest)
    | cs => (1, cs)
  if cs.isEmpty || !(cs.all Char.isDigit) then none
  else some (sign * digitsToNat cs)

/-- Finite-number grammar of Rust `f64::from_str`, the value kept exactly:
optional sign, mantissa digits with an optional point (at least one digit),
optional `e`/`E` exponent.  The non-finite `inf`/`nan` forms of Rust are
not modelled; no rounding to binary is performed, so values are exact
rationals. -/
def parseF64 (s : String) : Option Rat :=
  let cs := s.toList
  let (sign, cs) : Int × List Char := match cs with
    | '+' :: rest => (1, rest)
    | '-' :: rest => (-1, rest)
    | cs => (1, cs)
  let (ip, cs) := cs.span (·.isDigit)
  let (fp, cs) : List Char × List Char := match cs with
    | '.' :: rest => rest.span (·.isDigit)
    | cs => ([], cs)
  if ip.isEmpty && fp.isEmpty then none
  else
    let mant : Int := sign * (digitsToNat ip * 10 ^ fp.length + digitsToNat fp : Nat)
    let mkVal : Int → Rat := fun ex =>
      let e : Int := ex - fp.length
      if 0 ≤ e then mkRat (mant * ((10 : Nat) ^ e.toNat : Int)) 1
      else mkRat mant ((10 : Nat) ^ (-e).toNat)
    match cs with
    | [] => some (mkVal 0)
    | 'e' :: rest => (parseSignedDigits rest).map mkVal
    | 'E' :: rest => (parseSignedDigits rest).map mkVal
    | _ => none

/-- Nearest integer to `num / den`, ties to even, the rounding Rust
applies when formatting a value at a fixed precision. -/
def roundHalfEven (num : Int) (den : Nat) : Int :=
  let f := Int.fdiv num den
  let r : Int := num - f * den
  if 2 * r < den then f
  else if (den : Int) < 2 * r then f + 1
  else if f % 2 = 0 then f else f + 1

/-- Decimal digits of `n`, left-padded with zeros to width `w`. -/
def padZeros (w : Nat) (n : Nat) : String :=
  let s := toString n
  String.mk (List.replicate (w - s.length) '0') ++ s

/-- Left-pad `s` with spaces to width `w` (Rust right-aligned `{:>w}`). -/
def padLeft (w : Nat) (s : String) : String :=
  String.mk (List.replicate (w - s.length) ' ') ++ s

/-- Fixed-precision decimal rendering of `q` at `prec` decimal places,
as Rust `format!` produces for a value equal to `q`. -/
def fmtFixed (q : Rat) (prec : Nat) : String :=
  let scaled := roundHalfEven (q.num * ((10 : Nat) ^ prec : Int)) q.den
  let sgn := if scaled < 0 then "-" else ""
  let m := scaled.natAbs
  if prec = 0 then sgn ++ toString m
  else sgn ++ toString (m / 10 ^ prec) ++ "." ++ padZeros prec (m % 10 ^ prec)

/-- Fixed-precision rendering right-aligned in a field of width `w`
(Rust `{:w.prec}` on a float). -/
def fmtFixedPad (w : Nat) (q : Rat) (prec : Nat) : String :=
  padLeft w (fmtFixed q prec)

/-- Fractional digits of `r / den`, expanded until the remainder is zero
(with fuel; parse-produced rationals always terminate well before it runs
out, having denominators of the form `2 ^ a * 5 ^ b`). -/
def fracDigits : Nat → Nat → Nat → List Char
  | _, _, 0 => []
  | r, den, fuel + 1 =>
    if r = 0 then []
    else Char.ofNat ('0'.toNat + r * 10 / den) :: fracDigits (r * 10 % den) den fuel

/-- Plain `Display` rendering of an `f64` equal to the rational `q`
(Rust prints the shortest decimal; for a value with a finite decimal
expansion that is the exact expansion, with no point when integral). -/
def f64Display (q : Rat) : String :=
  let sgn := if q.num < 0 then "-" else ""
  let m := q.num.natAbs
  let fd := fracDigits (m % q.den) q.den 1200
  if fd.isEmpty then sgn ++ toString (m / q.den)
  else sgn ++ toString (m / q.den) ++ "." ++ String.mk fd

/-! ## Value grammar (`FromStr` impls of parse.rs) -/

/-- Grammar of `model type` (parse.rs `FromStr for ModelType`). -/
def ModelType.fromStr (s : String) : Option ModelType :=
  match s with
  | "gravimetric" => some .Gravimetric
  | "geometric" => some .Geometric
  | "hybrid" => some .Hybrid
  | _ => none

/-- Grammar of `data type` (parse.rs `FromStr for DataType`). -/
def DataType.fromStr (s : String) : Option DataType :=
  match s with
  | "geoid" => some .Geoid
  | "quasi-geoid" => some .QuasiGeoid
  | _ => none

/-- Grammar of `data units` (parse.rs `FromStr for DataUnit`). -/
def DataUnits.fromStr (s : String) : Option DataUnits :=
  match s with
  | "meters" => some .Meters
  | "feet" => some .Feet
  | _ => none

/-- Grammar of `data format` (parse.rs `FromStr for DataFormat`). -/
def DataFormat.fromStr (s : String) : Option DataFormat :=
  match s with
  | "grid" => some .Grid
  | "sparse" => some .Sparse
  | _ => none

/-- Grammar of `data ordering` (parse.rs `FromStr for DataOrdering`). -/
def DataOrdering.fromStr (s : String) : Option DataOrdering :=
  match s with
  | "N-to-S, W-to-E" => some .N2SW2E
  | "lat, lon, N" => some .LatLonN
  | "east, north, N" => some .EastNorthN
  | "N" => some .N
  | "zeta" => some .Zeta
  | _ => none

/-- Grammar of `tide system` (parse.rs `FromStr for TideSystem`). -/
def TideSystem.fromStr (s : String) : Option TideSystem :=
  match s with
  | "tide-free" => some .TideFree
  | "mean-tide" => some .MeanTide
  | "zero-tide" => some .ZeroTide
  | _ => none

/-- Grammar of `coord type` (parse.rs `FromStr for CoordType`). -/
def CoordType.fromStr (s : String) : Option CoordType :=
  match s with
  | "geodetic" => some .Geodetic
  | "projected" => some .Projected
  | _ => none

/-- Grammar of `coord units` (parse.rs `FromStr for CoordUnits`). -/
def CoordUnits.fromStr (s : String) : Option CoordUnits :=
  match s with
  | "dms" => some .DMS
  | "deg" => some .Deg
  | "meters" => some .Meters
  | "feet" => some .Feet
  | _ => none

/-- Grammar of a coordinate (parse.rs `FromStr for Coord`): a decimal
number, else the DMS shape `<i16>°<u8>\x27<u8>"` with nothing around it.
On failure the carried text is what the source's (shadowed) `s` holds at
that point: the whole input for a missing separator, the seconds
substring afterwards. -/
def Coord.fromStr (s : String) : Except String Coord :=
  match parseF64 s with
  | some f => .ok (.Dec f)
  | none =>
    match splitOnce '°' s with
    | none => .error s
    | some (d, rest) =>
      match splitOnce '\'' rest with
      | none => .error s
      | some (m, rest) =>
        match splitOnce '"' rest with
        | none => .error s
        | some (sec, rest) =>
          if rest ≠ "" then .error sec
          else
            match parseRustInt 16 d with
            | none => .error sec
            | some degree =>
              match parseRustUInt 8 m with
              | none => .error sec
              | some minutes =>
                match parseRustUInt 8 sec with
                | none => .error sec
                | some second => .ok (.DMS degree minutes second)

/-- Grammar of `creation date` (parse.rs `FromStr for CreationDate`):
exactly three `/`-separated fields `day/month/year` parsed as
`u8`/`u8`/`u16`. -/
def CreationDate.fromStr (s : String) : Option CreationDate :=
  match (splitAllChar '/' s.toList).map String.mk with
  | [d, m, y] =>
    match parseRustUInt 16 y, parseRustUInt 8 m, parseRustUInt 8 d with
    | some year, some month, some day => some ⟨year, month, day⟩
    | _, _, _ => none
  | _ => none

/-- Grammar of a header key (parse.rs `FromStr for HeaderField`). -/
def HeaderField.fromStr (s : String) : Option HeaderField :=
  match s with
  | "model name" => some .ModelName
  | "model year" => some .ModelYear
  | "model type" => some .ModelType
  | "data type" => some .DataType
  | "data units" => some .DataUnits
  | "data format" => some .DataFormat
  | "data ordering" => some .DataOrdering
  | "ref ellipsoid" => some .RefEllipsoid
  | "ref frame" => some .RefFrame
  | "height datum" => some .HeightDatum
  | "tide system" => some .TideSystem
  | "coord type" => some .CoordType
  | "coord units" => some .CoordUnits
  | "map projection" => some .MapProjection
  | "EPSG code" => some .EpsgCode
  | "lat min" => some .LatMin
  | "lat max" => some .LatMax
  | "lon min" => some .LonMin
  | "lon max" => some .LonMax
  | "north min" => some .NorthMin
  | "north max" => some .NorthMax
  | "east min" => some .EastMin
  | "east max" => some .EastMax
  | "delta lat" => some .DeltaLat
  | "delta lon" => some .DeltaLon
  | "delta north" => some .DeltaNorth
  | "delta east" => some .DeltaEast
  | "nrows" => some .NRows
  | "ncols" => some .NCols
  | "nodata" => some .NoData
  | "creation date" => some .CreationDate
  | "ISG format" => some .IsgFormat
  | _ => none

/-- Unit-to-variant predicate (parse.rs `CoordUnits::check`). -/
def CoordUnits.check (u : CoordUnits) (coord : Coord) : Bool :=
  match u with
  | .DMS => match coord with | .DMS .. => true | _ => false
  | .Deg | .Meters | .Feet => match coord with | .Dec _ => true | _ => false

/-- Unit-to-variant closure re-created in parse.rs `parse_data_sparse`
and in validation.rs (`is_valid_angle` / `is_valid_coord`). -/
def isValidAngle (u : CoordUnits) (a : Coord) : Bool :=
  match u with
  | .DMS => match a with | .DMS .. => true | _ => false
  | .Deg | .Meters | .Feet => match a with | .Dec _ => true | _ => false

/-! ## Token stream (token.rs) -/

/-- Lexical token (token.rs `Token`, without the debug-only `kind`):
trimmed text, half-open character span within its line, 1-based line
number. -/
structure Token where
  value : String
  span : Nat × Nat
  lineno : Nat
deriving DecidableEq, Repr

namespace ParseError

/-- Constructor mirroring error.rs `ParseError::dup_header`. -/
def dupHeader (kind : HeaderField) (token : Token) : ParseError :=
  withSpanAndLineno (.DuplicatedHeaderKey kind) token.span token.lineno

/-- Constructor mirroring error.rs `ParseError::unknown_header_key`. -/
def unknownHeaderKey (token : Token) : ParseError :=
  withSpanAndLineno (.UnknownHeaderKey token.value) token.span token.lineno

/-- Constructor mirroring error.rs `ParseError::missing_header`. -/
def missingHeader (kind : HeaderField) : ParseError :=
  mk' (.MissingHeaderKey kind)

/-- Constructor mirroring error.rs `ParseError::invalid_header_value`
(the nested cause holds the token's text). -/
def invalidHeaderValue (kind : HeaderField) (token : Token) : ParseError :=
  withSpanAndLineno (.InvalidHeaderValue kind (some token.value)) token.span token.lineno

/-- Constructor mirroring error.rs `ParseError::from_parse_value_err`
(the nested cause `v` comes from the failed value parse). -/
def fromParseValueErr (v : String) (kind : HeaderField) (token : Token) : ParseError :=
  withSpanAndLineno (.InvalidHeaderValue kind (some v)) token.span token.lineno

/-- Constructor mirroring error.rs `ParseError::invalid_data_bounds`. -/
def invalidDataBounds (key : HeaderField) (coord_type : CoordType) (token : Token) : ParseError :=
  withLineno (.InvalidDataBounds key coord_type) token.lineno

/-- Constructor mirroring error.rs `ParseError::invalid_data`. -/
def invalidData (token : Token) : ParseError :=
  withSpanAndLineno (.InvalidData token.value) token.span token.lineno

/-- Constructor mirroring error.rs `ParseError::too_short_data`. -/
def shortData (direction : DataDirection) (expected : Nat) (lineno : Nat) : ParseError :=
  withLineno (.InvalidDataLength .Short direction expected) lineno

/-- Constructor mirroring error.rs `ParseError::too_long_data`. -/
def longData (direction : DataDirection) (expected : Nat) (lineno : Nat) : ParseError :=
  withLineno (.InvalidDataLength .Long direction expected) lineno

end ParseError

/-- Rust `str::lines`: split at `\n`, dropping a final empty segment and
the trailing `\r` of every line. -/
def rustLines (s : String) : List String :=
  let parts := splitAllChar '\n' s.toList
  let parts := if parts.getLast? = some [] then parts.dropLast else parts
  parts.map fun l =>
    match l.reverse with
    | '\r' :: front => String.mk front.reverse
    | _ => String.mk l

/-- Comment mode of the tokenizer (token.rs `tokenize_comment`): walk the
enumerated lines up to the first one starting with `begin_of_head`,
returning the consumed character count (each line's stripped length plus
one) and the remaining lines; `none` when no such line exists. -/
def commentChars : List (Nat × String) → Option (Nat × List (Nat × String))
  | [] => none
  | (i, line) :: rest =>
    if strStartsWith line "begin_of_head" then some (0, (i, line) :: rest)
    else (commentChars rest).map fun (n, r) => (line.length + 1 + n, r)

/-- Character position of the first `:` or `=` in `line`
(token.rs `line.find([':', '='])`). -/
def findSep (line : String) : Option Nat :=
  line.toList.findIdx? fun c => c = ':' || c = '='

/-- First and last index of a non-space character
(token.rs `slice.find(|c| c != ' ')` / `rfind`). -/
def nonSpaceExtent (cs : List Char) : Option (Nat × Nat) :=
  match cs.findIdx? (fun c => c ≠ ' ') with
  | none => none
  | some i => some (i, cs.length - 1 - ((cs.reverse.findIdx? (fun c => c ≠ ' ')).getD 0))

/-- Key token of a header line split at separator position `pos`
(token.rs `tokenize_header`): the trimmed slice before the separator with
its non-space extent as span, or (when all spaces) the raw slice with the
full span. -/
def headerKeyToken (line : String) (pos : Nat) (lineno : Nat) : Token :=
  let slice := line.take pos
  match nonSpaceExtent slice.toList with
  | some (st, en) => ⟨strTrim slice, (st, en + 1), lineno⟩
  | none => ⟨slice, (0, pos), lineno⟩

/-- Value token of a header line split at separator position `pos`
(token.rs `tokenize_header`). -/
def headerValueToken (line : String) (pos : Nat) (lineno : Nat) : Token :=
  let slice := line.drop (pos + 1)
  match nonSpaceExtent slice.toList with
  | some (st, en) => ⟨strTrim slice, (pos + 1 + st, pos + 1 + en + 1), lineno⟩
  | none => ⟨slice, (pos + 1, line.length), lineno⟩

/-- Word-splitting loop behind `cellWords`: the state carries the start
position and the reversed characters of the word in progress. -/
def cellWordsAux : List Char → Nat → Option (Nat × List Char) → List (Nat × List Char)
  | [], _, none => []
  | [], _, some (st, w) => [(st, w.reverse)]
  | c :: rest, pos, none =>
    if c = ' ' then cellWordsAux rest (pos + 1) none
    else cellWordsAux rest (pos + 1) (some (pos, [c]))
  | c :: rest, pos, some (st, w) =>
    if c = ' ' then (st, w.reverse) :: cellWordsAux rest (pos + 1) none
    else cellWordsAux rest (pos + 1) (some (st, c :: w))

/-- Space-separated words of a data row with their start positions
(token.rs `DataColumnIterator`): cells split on runs of `\x20`. -/
def cellWords (cs : List Char) : List (Nat × List Char) :=
  cellWordsAux cs 0 none

/-- Data-row tokenization (token.rs `tokenize_data` feeding
`DataColumnIterator`): each cell as a trimmed token with its extent and
the row's 1-based line number. -/
def tokenizeCells (line : String) (lineno : Nat) : List Token :=
  (cellWords line.toList).map fun (pos, w) =>
    ⟨strTrim (String.mk w), (pos, pos + w.length), lineno⟩

/-! ## Header assembly (parse.rs `HeaderStore`) -/

/-- Accumulator of raw header tokens, one optional slot per field
(parse.rs `HeaderStore`). -/
structure HeaderStore where
  model_name : Option Token := none
  model_year : Option Token := none
  model_type : Option Token := none
  data_type : Option Token := none
  data_units : Option Token := none
  data_format : Option Token := none
  data_ordering : Option Token := none
  ref_ellipsoid : Option Token := none
  ref_frame : Option Token := none
  height_datum : Option Token := none
  tide_system : Option Token := none
  coord_type : Option Token := none
  coord_units : Option Token := none
  map_projection : Option Token := none
  epsg_code : Option Token := none
  lat_min : Option Token := none
  lat_max : Option Token := none
  north_min : Option Token := none
  north_max : Option Token := none
  lon_min : Option Token := none
  lon_max : Option Token := none
  east_min : Option Token := none
  east_max : Option Token := none
  delta_lat : Option Token := none
  delta_lon : Option Token := none
  delta_north : Option Token := none
  delta_east : Option Token := none
  nrows : Option Token := none
  ncols : Option Token := none
  nodata : Option Token := none
  creation_date : Option Token := none
  isg_format : Option Token := none
deriving DecidableEq, Repr

/-- One step of the `set_value!` expansion of parse.rs
`HeaderStore::from_tokenizer`: store `value` in the slot of field `f`,
failing with a duplicated-key error at the key token when the slot is
already filled. -/
def HeaderStore.set (st : HeaderStore) (f : HeaderField) (key value : Token) :
    Except ParseError HeaderStore :=
  match f with
  | .ModelName => if st.model_name.isSome then .error (ParseError.dupHeader .ModelName key) else .ok { st with model_name := some value }
  | .ModelYear => if st.model_year.isSome then .error (ParseError.dupHeader .ModelYear key) else .ok { st with model_year := some value }
  | .ModelType => if st.model_type.isSome then .error (ParseError.dupHeader .ModelType key) else .ok { st with model_type := some value }
  | .DataType => if st.data_type.isSome then .error (ParseError.dupHeader .DataType key) else .ok { st with data_type := some value }
  | .DataUnits => if st.data_units.isSome then .error (ParseError.dupHeader .DataUnits key) else .ok { st with data_units := some value }
  | .DataFormat => if st.data_format.isSome then .error (ParseError.dupHeader .DataFormat key) else .ok { st with data_format := some value }
  | .DataOrdering => if st.data_ordering.isSome then .error (ParseError.dupHeader .DataOrdering key) else .ok { st with data_ordering := some value }
  | .RefEllipsoid => if st.ref_ellipsoid.isSome then .error (ParseError.dupHeader .RefEllipsoid key) else .ok { st with ref_ellipsoid := some value }
  | .RefFrame => if st.ref_frame.isSome then .error (ParseError.dupHeader .RefFrame key) else .ok { st with ref_frame := some value }
  | .HeightDatum => if st.height_datum.isSome then .error (ParseError.dupHeader .HeightDatum key) else .ok { st with height_datum := some value }
  | .TideSystem => if st.tide_system.isSome then .error (ParseError.dupHeader .TideSystem key) else .ok { st with tide_system := some value }
  | .CoordType => if st.coord_type.isSome then .error (ParseError.dupHeader .CoordType key) else .ok { st with coord_type := some value }
  | .CoordUnits => if st.coord_units.isSome then .error (ParseError.dupHeader .CoordUnits key) else .ok { st with coord_units := some value }
  | .MapProjection => if st.map_projection.isSome then .error (ParseError.dupHeader .MapProjection key) else .ok { st with map_projection := some value }
  | .EpsgCode => if st.epsg_code.isSome then .error (ParseError.dupHeader .EpsgCode key) else .ok { st with epsg_code := some value }
  | .LatMin => if st.lat_min.isSome then .error (ParseError.dupHeader .LatMin key) else .ok { st with lat_min := some value }
  | .LatMax => if st.lat_max.isSome then .error (ParseError.dupHeader .LatMax key) else .ok { st with lat_max := some value }
  | .NorthMin => if st.north_min.isSome then .error (ParseError.dupHeader .NorthMin key) else .ok { st with north_min := some value }
  | .NorthMax => if st.north_max.isSome then .error (ParseError.dupHeader .NorthMax key) else .ok { st with north_max := some value }
  | .LonMin => if st.lon_min.isSome then .error (ParseError.dupHeader .LonMin key) else .ok { st with lon_min := some value }
  | .LonMax => if st.lon_max.isSome then .error (ParseError.dupHeader .LonMax key) else .ok { st with lon_max := some value }
  | .EastMin => if st.east_min.isSome then .error (ParseError.dupHeader .EastMin key) else .ok { st with east_min := some value }
  | .EastMax => if st.east_max.isSome then .error (ParseError.dupHeader .EastMax key) else .ok { st with east_max := some value }
  | .DeltaLat => if st.delta_lat.isSome then .error (ParseError.dupHeader .DeltaLat key) else .ok { st with delta_lat := some value }
  | .DeltaLon => if st.delta_lon.isSome then .error (ParseError.dupHeader .DeltaLon key) else .ok { st with delta_lon := some value }
  | .DeltaNorth => if st.delta_north.isSome then .error (ParseError.dupHeader .DeltaNorth key) else .ok { st with delta_north := some value }
  | .DeltaEast => if st.delta_east.isSome then .error (ParseError.dupHeader .DeltaEast key) else .ok { st with delta_east := some value }
  | .NRows => if st.nrows.isSome then .error (ParseError.dupHeader .NRows key) else .ok { st with nrows := some value }
  | .NCols => if st.ncols.isSome then .error (ParseError.dupHeader .NCols key) else .ok { st with ncols := some value }
  | .NoData => if st.nodata.isSome then .error (ParseError.dupHeader .NoData key) else .ok { st with nodata := some value }
  | .CreationDate => if st.creation_date.isSome then .error (ParseError.dupHeader .CreationDate key) else .ok { st with creation_date := some value }
  | .IsgFormat => if st.isg_format.isSome then .error (ParseError.dupHeader .IsgFormat key) else .ok { st with isg_format := some value }

/-- Header-assembly loop (parse.rs `HeaderStore::from_tokenizer` driving
token.rs `tokenize_header`): fold the header lines into the store,
stopping at — and not consuming — the `end_of_head` line. -/
def HeaderStore.fromLines : List (Nat × String) → HeaderStore →
    Except ParseError (HeaderStore × List (Nat × String))
  | [], _ => .error (ParseError.mk' .MissingEndOfHead)
  | (i, line) :: rest, st =>
    if strStartsWith line "end_of_head" then .ok (st, (i, line) :: rest)
    else
      match findSep line with
      | none => .error (ParseError.withSpanAndLineno .MissingSeparator (0, line.length) (i + 1))
      | some pos =>
        let key := headerKeyToken line pos (i + 1)
        let value := headerValueToken line pos (i + 1)
        match HeaderField.fromStr key.value with
        | none => .error (ParseError.unknownHeaderKey key)
        | some f =>
          match st.set f key value with
          | .error e => .error e
          | .ok st' => HeaderStore.fromLines rest st'

/-- Enum-valued token parse with the error mapping of parse.rs
(`parse().map_err(|e| from_parse_value_err(e, field, token))`; the enum
grammars carry their whole input in the error). -/
def parseEnumTok {α : Type} (p : String → Option α) (f : HeaderField) (t : Token) :
    Except ParseError α :=
  match p t.value with
  | some a => .ok a
  | none => .error (ParseError.fromParseValueErr t.value f t)

/-- Optional enum-valued field: absent, placeholder `---`, or parsed
(the per-field `match` arms of parse.rs `HeaderStore::header`). -/
def parseOptEnum {α : Type} (p : String → Option α) (f : HeaderField) :
    Option Token → Except ParseError (Option α)
  | none => .ok none
  | some t =>
    if t.value = "---" then .ok none
    else match p t.value with
      | some a => .ok (some a)
      | none => .error (ParseError.fromParseValueErr t.value f t)

/-- Optional text field: `---` maps to absent
(parse.rs `fn text(token) -> Option<String>` with `and_then`). -/
def textOpt : Option Token → Option String
  | none => none
  | some t => if t.value = "---" then none else some t.value

/-- Coordinate-valued token parse with the error mapping of parse.rs. -/
def parseCoordField (f : HeaderField) (t : Token) : Except ParseError Coord :=
  match Coord.fromStr t.value with
  | .ok c => .ok c
  | .error v => .error (ParseError.fromParseValueErr v f t)

/-- Mandatory coordinate field of the bounds resolver: presence check
then coordinate parse (the
`ok_or(missing_header(..))?.value.parse().map_err(..)` chains of
parse.rs `DataBounds::with_geodetic` / `with_projected`), keeping the
token for later unit-check error reporting. -/
def getCoordField (f : HeaderField) (slot : Option Token) : Except ParseError (Token × Coord) :=
  match slot with
  | none => .error (ParseError.missingHeader f)
  | some t =>
    match parseCoordField f t with
    | .error e => .error e
    | .ok c => .ok (t, c)

/-- Sparse-format delta field check of parse.rs (`map_or(true, |v|
v.value.eq("---"))`): the field must be absent or the placeholder. -/
def checkSparseDelta (f : HeaderField) : Option Token → Except ParseError Unit
  | none => .ok ()
  | some t =>
    if t.value = "---" then .ok ()
    else .error (ParseError.fromParseValueErr t.value f t)

/-- Data-bounds resolution under `coord type = geodetic`
(parse.rs `DataBounds::with_geodetic`). -/
def DataBounds.withGeodetic (header : HeaderStore) (data_format : DataFormat)
    (coord_units : CoordUnits) (coord_type : CoordType) : Except ParseError DataBounds :=
  match header.north_min, header.north_max, header.east_min, header.east_max,
        header.delta_north, header.delta_east with
  | some t, _, _, _, _, _ => .error (ParseError.invalidDataBounds .NorthMin coord_type t)
  | none, some t, _, _, _, _ => .error (ParseError.invalidDataBounds .NorthMax coord_type t)
  | none, none, some t, _, _, _ => .error (ParseError.invalidDataBounds .EastMin coord_type t)
  | none, none, none, some t, _, _ => .error (ParseError.invalidDataBounds .EastMax coord_type t)
  | none, none, none, none, some t, _ => .error (ParseError.invalidDataBounds .DeltaNorth coord_type t)
  | none, none, none, none, none, some t => .error (ParseError.invalidDataBounds .DeltaEast coord_type t)
  | none, none, none, none, none, none =>
    match getCoordField .LatMin header.lat_min with
    | .error e => .error e
    | .ok (latMinTok, lat_min) =>
    match getCoordField .LatMax header.lat_max with
    | .error e => .error e
    | .ok (latMaxTok, lat_max) =>
    match getCoordField .LonMin header.lon_min with
    | .error e => .error e
    | .ok (lonMinTok, lon_min) =>
    match getCoordField .LonMax header.lon_max with
    | .error e => .error e
    | .ok (lonMaxTok, lon_max) =>
    if !(coord_units.check lat_min) then
      .error (ParseError.invalidHeaderValue .LatMin latMinTok)
    else if !(coord_units.check lat_max) then
      .error (ParseError.invalidHeaderValue .LatMax latMaxTok)
    else if !(coord_units.check lon_min) then
      .error (ParseError.invalidHeaderValue .LonMin lonMinTok)
    else if !(coord_units.check lon_max) then
      .error (ParseError.invalidHeaderValue .LonMax lonMaxTok)
    else
      match data_format with
      | .Grid =>
        match getCoordField .DeltaLat header.delta_lat with
        | .error e => .error e
        | .ok (deltaLatTok, delta_lat) =>
        match getCoordField .DeltaLon header.delta_lon with
        | .error e => .error e
        | .ok (deltaLonTok, delta_lon) =>
        if !(coord_units.check delta_lat) then
          .error (ParseError.invalidHeaderValue .DeltaLat deltaLatTok)
        else if !(coord_units.check delta_lon) then
          .error (ParseError.invalidHeaderValue .DeltaLon deltaLonTok)
        else
          .ok (DataBounds.GridGeodetic lat_min lat_max lon_min lon_max delta_lat delta_lon)
      | .Sparse =>
        match checkSparseDelta .DeltaLat header.delta_lat with
        | .error e => .error e
        | .ok _ =>
        match checkSparseDelta .DeltaLon header.delta_lon with
        | .error e => .error e
        | .ok _ =>
          .ok (DataBounds.SparseGeodetic lat_min lat_max lon_min lon_max)

/-- Data-bounds resolution under `coord type = projected`
(parse.rs `DataBounds::with_projected`). -/
def DataBounds.withProjected (header : HeaderStore) (data_format : DataFormat)
    (coord_units : CoordUnits) (coord_type : CoordType) : Except ParseError DataBounds :=
  match header.lat_min, header.lat_max, header.lon_min, header.lon_max,
        header.delta_lat, header.delta_lon with
  | some t, _, _, _, _, _ => .error (ParseError.invalidDataBounds .LatMin coord_type t)
  | none, some t, _, _, _, _ => .error (ParseError.invalidDataBounds .LatMax coord_type t)
  | none, none, some t, _, _, _ => .error (ParseError.invalidDataBounds .LonMin coord_type t)
  | none, none, none, some t, _, _ => .error (ParseError.invalidDataBounds .LonMax coord_type t)
  | none, none, none, none, some t, _ => .error (ParseError.invalidDataBounds .DeltaLat coord_type t)
  | none, none, none, none, none, some t => .error (ParseError.invalidDataBounds .DeltaLon coord_type t)
  | none, none, none, none, none, none =>
    match getCoordField .NorthMin header.north_min with
    | .error e => .error e
    | .ok (northMinTok, north_min) =>
    match getCoordField .NorthMax header.north_max with
    | .error e => .error e
    | .ok (northMaxTok, north_max) =>
    match getCoordField .EastMin header.east_min with
    | .error e => .error e
    | .ok (eastMinTok, east_min) =>
    match getCoordField .EastMax header.east_max with
    | .error e => .error e
    | .ok (eastMaxTok, east_max) =>
    if !(coord_units.check north_min) then
      .error (ParseError.invalidHeaderValue .NorthMin northMinTok)
    else if !(coord_units.check north_max) then
      .error (ParseError.invalidHeaderValue .NorthMax northMaxTok)
    else if !(coord_units.check east_min) then
      .error (ParseError.invalidHeaderValue .EastMin eastMinTok)
    else if !(coord_units.check east_max) then
      .error (ParseError.invalidHeaderValue .EastMax eastMaxTok)
    else
      match data_format with
      | .Grid =>
        match getCoordField .DeltaNorth header.delta_north with
        | .error e => .error e
        | .ok (deltaNorthTok, delta_north) =>
        match getCoordField .DeltaEast header.delta_east with
        | .error e => .error e
        | .ok (deltaEastTok, delta_east) =>
        if !(coord_units.check delta_north) then
          .error (ParseError.invalidHeaderValue .DeltaNorth deltaNorthTok)
        else if !(coord_units.check delta_east) then
          .error (ParseError.invalidHeaderValue .DeltaEast deltaEastTok)
        else
          .ok (DataBounds.GridProjected north_min north_max east_min east_max delta_north delta_east)
      | .Sparse =>
        match checkSparseDelta .DeltaNorth header.delta_north with
        | .error e => .error e
        | .ok _ =>
        match checkSparseDelta .DeltaEast header.delta_east with
        | .error e => .error e
        | .ok _ =>
          .ok (DataBounds.SparseProjected north_min north_max east_min east_max)

/-- Mandatory `usize`-valued header field (`nrows`/`ncols` of parse.rs
`HeaderStore::header`). -/
def parseUsizeField (f : HeaderField) (slot : Option Token) : Except ParseError Nat :=
  match slot with
  | none => .error (ParseError.missingHeader f)
  | some t =>
    match parseRustUInt 64 t.value with
    | some n => .ok n
    | none => .error (ParseError.invalidHeaderValue f t)

/-- Mandatory `nodata` header field of parse.rs `HeaderStore::header`:
the key must be present, its value being the placeholder `---` or a
decimal. -/
def parseNodataField (slot : Option Token) : Except ParseError (Option Rat) :=
  match slot with
  | none => .error (ParseError.missingHeader .NoData)
  | some t =>
    if t.value = "---" then .ok none
    else
      match parseF64 t.value with
      | some v => .ok (some v)
      | none => .error (ParseError.invalidHeaderValue .NoData t)

/-- Mandatory `ISG format` header field of parse.rs
`HeaderStore::header`: the key must be present with the exact literal
`2.0`. -/
def parseIsgFormatField (slot : Option Token) : Except ParseError String :=
  match slot with
  | none => .error (ParseError.missingHeader .IsgFormat)
  | some t =>
    if t.value = "2.0" then .ok t.value
    else .error (ParseError.invalidHeaderValue .IsgFormat t)

/-- Mandatory enum-valued header field (`data format`, `coord type`,
`coord units` of parse.rs `HeaderStore::header`). -/
def parseMandatoryEnum {α : Type} (p : String → Option α) (f : HeaderField)
    (slot : Option Token) : Except ParseError α :=
  match slot with
  | none => .error (ParseError.missingHeader f)
  | some t => parseEnumTok p f t

/-- Bounds dispatch of parse.rs `HeaderStore::header`
(`match coord_type` selecting `with_geodetic` or `with_projected`). -/
def resolveBounds (st : HeaderStore) (df : DataFormat) (cu : CoordUnits) :
    CoordType → Except ParseError DataBounds
  | .Geodetic => DataBounds.withGeodetic st df cu .Geodetic
  | .Projected => DataBounds.withProjected st df cu .Projected

/-- Header finalization (parse.rs `HeaderStore::header`): mandatory keys
`ISG format` (must be the literal `2.0`), `data format`, `coord type`,
`coord units`, `nrows`, `ncols` and `nodata`; bounds resolution branching
on `coord type`; every remaining field optional with the `---`
placeholder. -/
def HeaderStore.header (self : HeaderStore) : Except ParseError Header :=
  match parseIsgFormatField self.isg_format with
  | .error e => .error e
  | .ok ISG_format =>
  match parseMandatoryEnum DataFormat.fromStr .DataFormat self.data_format with
  | .error e => .error e
  | .ok data_format =>
  match parseMandatoryEnum CoordType.fromStr .CoordType self.coord_type with
  | .error e => .error e
  | .ok coord_type =>
  match parseMandatoryEnum CoordUnits.fromStr .CoordUnits self.coord_units with
  | .error e => .error e
  | .ok coord_units =>
  match resolveBounds self data_format coord_units coord_type with
  | .error e => .error e
  | .ok data_bounds =>
  match parseOptEnum ModelType.fromStr .ModelType self.model_type with
  | .error e => .error e
  | .ok model_type =>
  match parseOptEnum DataType.fromStr .DataType self.data_type with
  | .error e => .error e
  | .ok data_type =>
  match parseOptEnum DataUnits.fromStr .DataUnits self.data_units with
  | .error e => .error e
  | .ok data_units =>
  match parseOptEnum DataOrdering.fromStr .DataOrdering self.data_ordering with
  | .error e => .error e
  | .ok data_ordering =>
  match parseOptEnum TideSystem.fromStr .TideSystem self.tide_system with
  | .error e => .error e
  | .ok tide_system =>
  match parseUsizeField .NRows self.nrows with
  | .error e => .error e
  | .ok nrows =>
  match parseUsizeField .NCols self.ncols with
  | .error e => .error e
  | .ok ncols =>
  match parseNodataField self.nodata with
  | .error e => .error e
  | .ok nodata =>
  match parseOptEnum CreationDate.fromStr .CreationDate self.creation_date with
  | .error e => .error e
  | .ok creation_date =>
  .ok {
    model_name := textOpt self.model_name
    model_year := textOpt self.model_year
    model_type := model_type
    data_type := data_type
    data_units := data_units
    data_format := data_format
    data_ordering := data_ordering
    ref_ellipsoid := textOpt self.ref_ellipsoid
    ref_frame := textOpt self.ref_frame
    height_datum := textOpt self.height_datum
    tide_system := tide_system
    coord_type := coord_type
    coord_units := coord_units
    map_projection := textOpt self.map_projection
    EPSG_code := textOpt self.epsg_code
    data_bounds := data_bounds
    nrows := nrows
    ncols := ncols
    nodata := nodata
    creation_date := creation_date
    ISG_format := ISG_format
  }

/-! ## Data body parser (parse.rs) -/

/-- Inner cell loop of parse.rs `parse_data_grid`: parse the cells of one
row, counting columns against `ncols`; a cell equal to the `nodata`
sentinel becomes absent. -/
def parseGridRow (header : Header) (lineno rno : Nat) :
    List Token → Nat → List (Option Rat) → Except ParseError (List (Option Rat))
  | [], cno, acc =>
    if cno ≠ header.ncols then
      .error (ParseError.shortData .Column header.ncols (lineno + rno + 1))
    else .ok acc.reverse
  | token :: rest, cno, acc =>
    if header.ncols ≤ cno then
      .error (ParseError.longData .Column header.ncols (lineno + rno + 1))
    else
      match parseF64 (strTrim token.value) with
      | none => .error (ParseError.invalidData token)
      | some a =>
        let cell := if header.nodata = some a then none else some a
        parseGridRow header lineno rno rest (cno + 1) (cell :: acc)

/-- Row loop of parse.rs `parse_data_grid`: iterate the tokenized data
rows, counting rows against `nrows`. -/
def parseDataGridGo (header : Header) (lineno : Nat) :
    List (List Token) → Nat → List (List (Option Rat)) → Except ParseError Data
  | [], rno, acc =>
    if rno ≠ header.nrows then
      .error (ParseError.shortData .Row header.nrows (lineno + rno + 1))
    else .ok (.Grid acc.reverse)
  | tokens :: rest, rno, acc =>
    if header.nrows ≤ rno then
      .error (ParseError.longData .Row header.nrows (lineno + rno + 1))
    else
      match parseGridRow header lineno rno tokens 0 [] with
      | .error e => .error e
      | .ok row => parseDataGridGo header lineno rest (rno + 1) (row :: acc)

/-- Grid data parser (parse.rs `parse_data_grid`); `lineno` is the
1-based line number of the `end_of_head` line. -/
def parseDataGrid (rows : List (List Token)) (header : Header) (lineno : Nat) :
    Except ParseError Data :=
  parseDataGridGo header lineno rows 0 []

/-- One sparse row of parse.rs `parse_data_sparse`: exactly three cells —
two coordinates matching `coord_units` and one decimal. -/
def parseSparseRow (header : Header) (lineno rno : Nat) (tokens : List Token) :
    Except ParseError (Coord × Coord × Rat) :=
  match tokens with
  | [] => .error (ParseError.shortData .Column header.ncols (lineno + rno + 1))
  | ta :: rest =>
    match Coord.fromStr (strTrim ta.value) with
    | .error _ => .error (ParseError.invalidData ta)
    | .ok a =>
      if !(isValidAngle header.coord_units a) then .error (ParseError.invalidData ta)
      else match rest with
      | [] => .error (ParseError.shortData .Column header.ncols (lineno + rno + 1))
      | tb :: rest =>
        match Coord.fromStr (strTrim tb.value) with
        | .error _ => .error (ParseError.invalidData tb)
        | .ok b =>
          if !(isValidAngle header.coord_units b) then .error (ParseError.invalidData tb)
          else match rest with
          | [] => .error (ParseError.shortData .Column header.ncols (lineno + rno + 1))
          | tc :: rest =>
            match parseF64 (strTrim tc.value) with
            | none => .error (ParseError.invalidData tc)
            | some c =>
              if !rest.isEmpty then
                .error (ParseError.longData .Column header.ncols (lineno + rno + 1))
              else .ok (a, b, c)

/-- Row loop of parse.rs `parse_data_sparse`. -/
def parseDataSparseGo (header : Header) (lineno : Nat) :
    List (List Token) → Nat → List (Coord × Coord × Rat) → Except ParseError Data
  | [], rno, acc =>
    if rno ≠ header.nrows then
      .error (ParseError.shortData .Row header.nrows (lineno + rno + 1))
    else .ok (.Sparse acc.reverse)
  | tokens :: rest, rno, acc =>
    if header.nrows ≤ rno then
      .error (ParseError.longData .Row header.nrows (lineno + rno + 1))
    else
      match parseSparseRow header lineno rno tokens with
      | .error e => .error e
      | .ok triple => parseDataSparseGo header lineno rest (rno + 1) (triple :: acc)

/-- Sparse data parser (parse.rs `parse_data_sparse`). -/
def parseDataSparse (rows : List (List Token)) (header : Header) (lineno : Nat) :
    Except ParseError Data :=
  parseDataSparseGo header lineno rows 0 []

/-- Deserialization entry point (parse.rs `from_str`): comment, begin
marker, header assembly, header finalization, end marker, data body. -/
def from_str (s : String) : Except ParseError ISG :=
  let lines := (rustLines s).enum
  match commentChars lines with
  | none => .error (ParseError.mk' .MissingBeginOfHead)
  | some (chars, rest) =>
    let comment := s.take chars
    match rest with
    | [] => .error (ParseError.mk' .MissingBeginOfHead)
    | _ :: afterBoh =>
      match HeaderStore.fromLines afterBoh {} with
      | .error e => .error e
      | .ok (st, restAtEoh) =>
        match st.header with
        | .error e => .error e
        | .ok header =>
          match restAtEoh with
          | [] => .error (ParseError.mk' .MissingEndOfHead)
          | (i, _) :: dataLines =>
            let eohLineno := i + 1
            let rows := dataLines.map fun p => tokenizeCells p.2 (p.1 + 1)
            let data := match header.data_format with
              | .Grid => parseDataGrid rows header eohLineno
              | .Sparse => parseDataSparse rows header eohLineno
            match data with
            | .error e => .error e
            | .ok data => .ok ⟨comment, header, data⟩

/-! ## Serializer (display.rs) -/

/-- Apostrophe character as a string (the minutes mark of DMS). -/
def apos : String := String.mk ['\'']

/-- Rendering of `Coord` used for header bounds and sparse data cells
(display.rs `Coord::_to_string`): DMS as `{:>4}°{:02}\x27{:02}"`, decimals
at unit-dependent precision in an 11-character field. -/
def Coord.toIsgString (c : Coord) (coord_units : CoordUnits) : String :=
  match c with
  | .DMS degree minutes second =>
    padLeft 4 (toString degree) ++ "°" ++ padZeros 2 minutes ++ apos ++ padZeros 2 second ++ "\""
  | .Dec value =>
    match coord_units with
    | .Deg => fmtFixedPad 11 value 6
    | .DMS => padLeft 11 (f64Display value)
    | .Meters | .Feet => fmtFixedPad 11 value 3

/-- Rendering of an optional text field: absent as `---` (display.rs). -/
def showOptStr : Option String → String
  | none => "---"
  | some s => s

/-- Display string of `ModelType` (display.rs). -/
def ModelType.display : ModelType → String
  | .Gravimetric => "gravimetric"
  | .Geometric => "geometric"
  | .Hybrid => "hybrid"

/-- Display string of `DataType` (display.rs). -/
def DataType.display : DataType → String
  | .Geoid => "geoid"
  | .QuasiGeoid => "quasi-geoid"

/-- Display string of `DataUnits` (display.rs). -/
def DataUnits.display : DataUnits → String
  | .Meters => "meters"
  | .Feet => "feet"

/-- Display string of `DataFormat` (display.rs). -/
def DataFormat.display : DataFormat → String
  | .Grid => "grid"
  | .Sparse => "sparse"

/-- Display string of `DataOrdering` (display.rs). -/
def DataOrdering.display : DataOrdering → String
  | .N2SW2E => "N-to-S, W-to-E"
  | .LatLonN => "lat, lon, N"
  | .EastNorthN => "east, north, N"
  | .N => "N"
  | .Zeta => "zeta"

/-- Display string of `TideSystem` (display.rs). -/
def TideSystem.display : TideSystem → String
  | .TideFree => "tide-free"
  | .MeanTide => "mean-tide"
  | .ZeroTide => "zero-tide"

/-- Display string of `CoordType` (display.rs). -/
def CoordType.display : CoordType → String
  | .Geodetic => "geodetic"
  | .Projected => "projected"

/-- Display string of `CoordUnits` (display.rs). -/
def CoordUnits.display : CoordUnits → String
  | .DMS => "dms"
  | .Deg => "deg"
  | .Meters => "meters"
  | .Feet => "feet"

/-- Rendering of an optional enum-like field via its display string. -/
def showOptWith {α : Type} (d : α → String) : Option α → String
  | none => "---"
  | some a => d a

/-- Data-bounds block of the header rendering (display.rs
`impl Display for Header`, the `data_bounds` match). -/
def DataBounds.display (db : DataBounds) (coord_units : CoordUnits) : String :=
  match db with
  | .GridGeodetic lat_min lat_max lon_min lon_max delta_lat delta_lon =>
    "lat min        = " ++ lat_min.toIsgString coord_units ++ "\n" ++
    "lat max        = " ++ lat_max.toIsgString coord_units ++ "\n" ++
    "lon min        = " ++ lon_min.toIsgString coord_units ++ "\n" ++
    "lon max        = " ++ lon_max.toIsgString coord_units ++ "\n" ++
    "delta lat      = " ++ delta_lat.toIsgString coord_units ++ "\n" ++
    "delta lon      = " ++ delta_lon.toIsgString coord_units ++ "\n"
  | .GridProjected north_min north_max east_min east_max delta_north delta_east =>
    "north min      = " ++ north_min.toIsgString coord_units ++ "\n" ++
    "north max      = " ++ north_max.toIsgString coord_units ++ "\n" ++
    "east min       = " ++ east_min.toIsgString coord_units ++ "\n" ++
    "east max       = " ++ east_max.toIsgString coord_units ++ "\n" ++
    "delta north    = " ++ delta_north.toIsgString coord_units ++ "\n" ++
    "delta east     = " ++ delta_east.toIsgString coord_units ++ "\n"
  | .SparseGeodetic lat_min lat_max lon_min lon_max =>
    "lat min        = " ++ lat_min.toIsgString coord_units ++ "\n" ++
    "lat max        = " ++ lat_max.toIsgString coord_units ++ "\n" ++
    "lon min        = " ++ lon_min.toIsgString coord_units ++ "\n" ++
    "lon max        = " ++ lon_max.toIsgString coord_units ++ "\n" ++
    "delta lat      = ---\n" ++
    "delta lon      = ---\n"
  | .SparseProjected north_min north_max east_min east_max =>
    "north min      = " ++ north_min.toIsgString coord_units ++ "\n" ++
    "north max      = " ++ north_max.toIsgString coord_units ++ "\n" ++
    "east min       = " ++ east_min.toIsgString coord_units ++ "\n" ++
    "east max       = " ++ east_max.toIsgString coord_units ++ "\n" ++
    "delta north    = ---\n" ++
    "delta east     = ---\n"

/-- Header rendering (display.rs `impl Display for Header`). -/
def Header.display (h : Header) : String :=
  "model name     : " ++ showOptStr h.model_name ++ "\n" ++
  "model year     : " ++ showOptStr h.model_year ++ "\n" ++
  "model type     : " ++ showOptWith ModelType.display h.model_type ++ "\n" ++
  "data type      : " ++ showOptWith DataType.display h.data_type ++ "\n" ++
  "data units     : " ++ showOptWith DataUnits.display h.data_units ++ "\n" ++
  "data format    : " ++ h.data_format.display ++ "\n" ++
  "data ordering  : " ++ showOptWith DataOrdering.display h.data_ordering ++ "\n" ++
  "ref ellipsoid  : " ++ showOptStr h.ref_ellipsoid ++ "\n" ++
  "ref frame      : " ++ showOptStr h.ref_frame ++ "\n" ++
  "height datum   : " ++ showOptStr h.height_datum ++ "\n" ++
  "tide system    : " ++ showOptWith TideSystem.display h.tide_system ++ "\n" ++
  "coord type     : " ++ h.coord_type.display ++ "\n" ++
  "coord units    : " ++ h.coord_units.display ++ "\n" ++
  "map projection : " ++ showOptStr h.map_projection ++ "\n" ++
  "EPSG code      : " ++ showOptStr h.EPSG_code ++ "\n" ++
  h.data_bounds.display h.coord_units ++
  "nrows          = " ++ padLeft 11 (toString h.nrows) ++ "\n" ++
  "ncols          = " ++ padLeft 11 (toString h.ncols) ++ "\n" ++
  "nodata         = " ++ (match h.nodata with
    | none => "---"
    | some v => " " ++ fmtFixedPad 10 v 4) ++ "\n" ++
  "creation date  = " ++ (match h.creation_date with
    | none => "---"
    | some v => padLeft 11 (padZeros 2 v.day ++ "/" ++ padZeros 2 v.month ++ "/" ++ padZeros 4 v.year)) ++ "\n" ++
  "ISG format     = " ++ padLeft 11 h.ISG_format ++ "\n"

/-- Grid data cell rendering (display.rs `impl Display for ISG`, the
`match (column, self.header.nodata.as_ref())` arms): an absent cell with
an absent `nodata` renders the fixed sentinel literal. -/
def gridCellStr (nodata : Option Rat) (column : Option Rat) : String :=
  match column, nodata with
  | none, none => "-9999.9999"
  | some v, _ => fmtFixedPad 10 v 4
  | none, some v => fmtFixedPad 10 v 4

/-- Data-section rendering (display.rs `impl Display for ISG`, data
part). -/
def Data.display (d : Data) (h : Header) : String :=
  match d with
  | .Grid rows =>
    String.join (rows.map fun row =>
      String.intercalate " " (row.map (gridCellStr h.nodata)) ++ "\n")
  | .Sparse rows =>
    String.join (rows.map fun t =>
      t.1.toIsgString h.coord_units ++ " " ++ t.2.1.toIsgString h.coord_units ++ " " ++
      fmtFixedPad 10 t.2.2 4 ++ "\n")

/-- Marker line written by the serializer (display.rs): `begin_of_head`
followed by a space and 48 equals signs, then a newline. -/
def bohLine : String :=
  "begin_of_head " ++ String.mk (List.replicate 48 '=') ++ "\n"

/-- Marker line written by the serializer (display.rs): `end_of_head`
followed by a space and 50 equals signs, then a newline. -/
def eohLine : String :=
  "end_of_head " ++ String.mk (List.replicate 50 '=') ++ "\n"

/-- Serialization (display.rs `to_string` via `impl Display for ISG`). -/
def to_string (isg : ISG) : String :=
  (if isg.comment ≠ "" then
    isg.comment ++ (if lastCharIs isg.comment '\n' then "" else "\n")
  else "") ++
  bohLine ++
  isg.header.display ++
  eohLine ++
  isg.data.display isg.header

/-! ## Validator (validation.rs) -/

/-- Variant match of `data_bounds` against `(data_format, coord_type)`
(the four-way `match` of validation.rs `Header::validate`). -/
def boundsVariantMatches (data_format : DataFormat) (coord_type : CoordType)
    (db : DataBounds) : Bool :=
  match data_format, coord_type, db with
  | .Grid, .Geodetic, .GridGeodetic .. => true
  | .Grid, .Projected, .GridProjected .. => true
  | .Sparse, .Geodetic, .SparseGeodetic .. => true
  | .Sparse, .Projected, .SparseProjected .. => true
  | _, _, _ => false

/-- Per-field coordinate-unit checks over the active `data_bounds`
variant (validation.rs `Header::validate`, second match). -/
def validateBoundsCoords (u : CoordUnits) (db : DataBounds) : Except ValidationError Unit :=
  match db with
  | .GridGeodetic lat_min lat_max lon_min lon_max delta_lat delta_lon =>
    if !(isValidAngle u lat_min) then .error ⟨.CoordUnitsOnHeader .LatMin⟩
    else if !(isValidAngle u lat_max) then .error ⟨.CoordUnitsOnHeader .LatMax⟩
    else if !(isValidAngle u lon_min) then .error ⟨.CoordUnitsOnHeader .LonMin⟩
    else if !(isValidAngle u lon_max) then .error ⟨.CoordUnitsOnHeader .LonMax⟩
    else if !(isValidAngle u delta_lat) then .error ⟨.CoordUnitsOnHeader .DeltaLat⟩
    else if !(isValidAngle u delta_lon) then .error ⟨.CoordUnitsOnHeader .DeltaLon⟩
    else .ok ()
  | .GridProjected north_min north_max east_min east_max delta_north delta_east =>
    if !(isValidAngle u north_min) then .error ⟨.CoordUnitsOnHeader .NorthMin⟩
    else if !(isValidAngle u north_max) then .error ⟨.CoordUnitsOnHeader .NorthMax⟩
    else if !(isValidAngle u east_min) then .error ⟨.CoordUnitsOnHeader .EastMin⟩
    else if !(isValidAngle u east_max) then .error ⟨.CoordUnitsOnHeader .EastMax⟩
    else if !(isValidAngle u delta_north) then .error ⟨.CoordUnitsOnHeader .DeltaNorth⟩
    else if !(isValidAngle u delta_east) then .error ⟨.CoordUnitsOnHeader .DeltaEast⟩
    else .ok ()
  | .SparseGeodetic lat_min lat_max lon_min lon_max =>
    if !(isValidAngle u lat_min) then .error ⟨.CoordUnitsOnHeader .LatMin⟩
    else if !(isValidAngle u lat_max) then .error ⟨.CoordUnitsOnHeader .LatMax⟩
    else if !(isValidAngle u lon_min) then .error ⟨.CoordUnitsOnHeader .LonMin⟩
    else if !(isValidAngle u lon_max) then .error ⟨.CoordUnitsOnHeader .LonMax⟩
    else .ok ()
  | .SparseProjected north_min north_max east_min east_max =>
    if !(isValidAngle u north_min) then .error ⟨.CoordUnitsOnHeader .NorthMin⟩
    else if !(isValidAngle u north_max) then .error ⟨.CoordUnitsOnHeader .NorthMax⟩
    else if !(isValidAngle u east_min) then .error ⟨.CoordUnitsOnHeader .EastMin⟩
    else if !(isValidAngle u east_max) then .error ⟨.CoordUnitsOnHeader .EastMax⟩
    else .ok ()

/-- Header validation (validation.rs `Header::validate`): format-version
literal, then bounds-variant match, then per-field unit checks. -/
def Header.validate (h : Header) : Except ValidationError Unit :=
  if h.ISG_format ≠ "2.0" then .error ⟨.ISGFormat⟩
  else if !(boundsVariantMatches h.data_format h.coord_type h.data_bounds) then
    .error ⟨.DataBounds h.data_format h.coord_type⟩
  else validateBoundsCoords h.coord_units h.data_bounds

/-- Row-length loop of validation.rs `Data::validate` for grids. -/
def validateGridRows (ncols : Nat) : List (List (Option Rat)) → Except ValidationError Unit
  | [] => .ok ()
  | row :: rest =>
    if row.length ≠ ncols then .error ⟨.NoCols ncols (some row.length)⟩
    else validateGridRows ncols rest

/-- Coordinate-unit loop of validation.rs `Data::validate` for sparse
data (`for (lineno, row) in data.iter().enumerate()`). -/
def validateSparseCoords (u : CoordUnits) :
    List (Coord × Coord × Rat) → Nat → Except ValidationError Unit
  | [], _ => .ok ()
  | t :: rest, idx =>
    if !(isValidAngle u t.1) then .error ⟨.CoordUnitsOnData (idx + 1) 1⟩
    else if !(isValidAngle u t.2.1) then .error ⟨.CoordUnitsOnData (idx + 1) 2⟩
    else validateSparseCoords u rest (idx + 1)

/-- Data validation (validation.rs `Data::validate`). -/
def Data.validate (d : Data) (header : Header) : Except ValidationError Unit :=
  match d with
  | .Grid rows =>
    if rows.length ≠ header.nrows then .error ⟨.NoRow header.nrows rows.length⟩
    else validateGridRows header.ncols rows
  | .Sparse rows =>
    if rows.length ≠ header.nrows then .error ⟨.NoRow header.nrows rows.length⟩
    else if header.ncols ≠ 3 then .error ⟨.NoCols header.ncols none⟩
    else validateSparseCoords header.coord_units rows 0

/-- Document validation (validation.rs `ISG::validate`): header first,
then data. -/
def ISG.validate (isg : ISG) : Except ValidationError Unit :=
  match isg.header.validate with
  | .error e => .error e
  | .ok _ => isg.data.validate isg.header

/-- Boolish wrapper (validation.rs `ISG::is_valid`). -/
def ISG.isValid (isg : ISG) : Bool :=
  match isg.validate with
  | .ok _ => true
  | .error _ => false

/-! ## Lemmas on the grid data parser -/

/-- Cell of a grid data row whose text parses as a decimal (after the
trim of parse.rs `parse_data_grid`). -/
def cellParses (t : Token) : Prop := (parseF64 (strTrim t.value)).isSome = true

instance (t : Token) : Decidable (cellParses t) := by
  unfold cellParses; infer_instance

/-- Well-formed grid data row for a header: exactly `ncols` cells, all
decimal. -/
def rowGood (h : Header) (tokens : List Token) : Prop :=
  tokens.length = h.ncols ∧ ∀ t ∈ tokens, cellParses t

instance (h : Header) (tokens : List Token) : Decidable (rowGood h tokens) := by
  unfold rowGood; infer_instance

theorem parseGridRow_ok (h : Header) (lineno rno : Nat) :
    ∀ (tokens : List Token) (cno : Nat) (acc : List (Option Rat)),
      (∀ t ∈ tokens, cellParses t) → cno + tokens.length = h.ncols → cno = acc.length →
      ∃ row, parseGridRow h lineno rno tokens cno acc = .ok row ∧ row.length = h.ncols := by
  intro tokens
  induction tokens with
  | nil =>
    intro cno acc _ hlen hacc
    simp only [List.length_nil, Nat.add_zero] at hlen
    refine ⟨acc.reverse, ?_, ?_⟩
    · simp only [parseGridRow]
      rw [if_neg (by omega : ¬ cno ≠ h.ncols)]
    · simp only [List.length_reverse]
      omega
  | cons t ts ih =>
    intro cno acc hcells hlen hacc
    have hc : ¬ (h.ncols ≤ cno) := by
      simp only [List.length_cons] at hlen
      omega
    have hsome := hcells t (List.mem_cons_self t ts)
    unfold cellParses at hsome
    obtain ⟨a, ha⟩ := Option.isSome_iff_exists.mp hsome
    simp only [parseGridRow, if_neg hc, ha]
    exact ih (cno + 1) (_ :: acc)
      (fun u hu => hcells u (List.mem_cons_of_mem _ hu))
      (by simp only [List.length_cons] at hlen; omega)
      (by simp [hacc])

theorem parseGridRow_short (h : Header) (lineno rno : Nat) :
    ∀ (tokens : List Token) (cno : Nat) (acc : List (Option Rat)),
      (∀ t ∈ tokens, cellParses t) → cno + tokens.length < h.ncols →
      parseGridRow h lineno rno tokens cno acc =
        .error (ParseError.shortData .Column h.ncols (lineno + rno + 1)) := by
  intro tokens
  induction tokens with
  | nil =>
    intro cno acc _ hlen
    simp only [List.length_nil, Nat.add_zero] at hlen
    simp only [parseGridRow]
    rw [if_pos (by omega : cno ≠ h.ncols)]
  | cons t ts ih =>
    intro cno acc hcells hlen
    have hc : ¬ (h.ncols ≤ cno) := by
      simp only [List.length_cons] at hlen
      omega
    obtain ⟨a, ha⟩ := Option.isSome_iff_exists.mp (hcells t (List.mem_cons_self t ts))
    simp only [parseGridRow, if_neg hc, ha]
    exact ih (cno + 1) (_ :: acc)
      (fun u hu => hcells u (List.mem_cons_of_mem _ hu))
      (by simp only [List.length_cons] at hlen; omega)

theorem parseGridRow_long (h : Header) (lineno rno : Nat) :
    ∀ (tokens : List Token) (cno : Nat) (acc : List (Option Rat)),
      (∀ t ∈ tokens, cellParses t) → h.ncols < cno + tokens.length → cno ≤ h.ncols →
      parseGridRow h lineno rno tokens cno acc =
        .error (ParseError.longData .Column h.ncols (lineno + rno + 1)) := by
  intro tokens
  induction tokens with
  | nil =>
    intro cno acc _ hlen hle
    simp only [List.length_nil] at hlen
    omega
  | cons t ts ih =>
    intro cno acc hcells hlen hle
    by_cases hc : h.ncols ≤ cno
    · simp only [parseGridRow, if_pos hc]
    · obtain ⟨a, ha⟩ := Option.isSome_iff_exists.mp (hcells t (List.mem_cons_self t ts))
      simp only [parseGridRow, if_neg hc, ha]
      exact ih (cno + 1) (_ :: acc)
        (fun u hu => hcells u (List.mem_cons_of_mem _ hu))
        (by simp only [List.length_cons] at hlen; omega)
        (by omega)

theorem parseGridRow_length (h : Header) (lineno rno : Nat) :
    ∀ (tokens : List Token) (cno : Nat) (acc : List (Option Rat)) (row : List (Option Rat)),
      parseGridRow h lineno rno tokens cno acc = .ok row → cno = acc.length →
      row.length = h.ncols := by
  intro tokens
  induction tokens with
  | nil =>
    intro cno acc row hok hacc
    simp only [parseGridRow] at hok
    by_cases hc : cno ≠ h.ncols
    · rw [if_pos hc] at hok
      exact absurd hok (by simp)
    · rw [if_neg hc] at hok
      cases hok
      simp only [List.length_reverse]
      omega
  | cons t ts ih =>
    intro cno acc row hok hacc
    by_cases hc : h.ncols ≤ cno
    · simp only [parseGridRow, if_pos hc] at hok
      simp at hok
    · simp only [parseGridRow, if_neg hc] at hok
      cases ha : parseF64 (strTrim t.value) with
      | none => rw [ha] at hok; exact absurd hok (by simp)
      | some a =>
        rw [ha] at hok
        exact ih (cno + 1) (_ :: acc) row hok (by simp [hacc])

/-! ## Lemmas on the grid row loop -/

theorem parseDataGridGo_ok (h : Header) (lineno : Nat) :
    ∀ (rows : List (List Token)) (rno : Nat) (acc : List (List (Option Rat))),
      (∀ r ∈ rows, rowGood h r) → rno + rows.length = h.nrows → rno = acc.length →
      ∃ g, parseDataGridGo h lineno rows rno acc = .ok (.Grid g) := by
  intro rows
  induction rows with
  | nil =>
    intro rno acc _ hlen hacc
    simp only [List.length_nil, Nat.add_zero] at hlen
    refine ⟨acc.reverse, ?_⟩
    simp only [parseDataGridGo]
    rw [if_neg (by omega : ¬ rno ≠ h.nrows)]
  | cons r rs ih =>
    intro rno acc hrows hlen hacc
    have hr : ¬ (h.nrows ≤ rno) := by
      simp only [List.length_cons] at hlen
      omega
    obtain ⟨hrlen, hrcells⟩ := hrows r (List.mem_cons_self r rs)
    obtain ⟨row, hrow, _⟩ :=
      parseGridRow_ok h lineno rno r 0 [] hrcells (by omega) rfl
    simp only [parseDataGridGo, if_neg hr, hrow]
    exact ih (rno + 1) (row :: acc)
      (fun u hu => hrows u (List.mem_cons_of_mem _ hu))
      (by simp only [List.length_cons] at hlen; omega)
      (by simp [hacc])

theorem parseDataGridGo_longRow (h : Header) (lineno : Nat) :
    ∀ (rows : List (List Token)) (rno : Nat) (acc : List (List (Option Rat))),
      (∀ r ∈ rows, rowGood h r) → h.nrows < rno + rows.length → rno ≤ h.nrows →
      parseDataGridGo h lineno rows rno acc =
        .error (ParseError.longData .Row h.nrows (lineno + h.nrows + 1)) := by
  intro rows
  induction rows with
  | nil =>
    intro rno acc _ hlen hle
    simp only [List.length_nil] at hlen
    omega
  | cons r rs ih =>
    intro rno acc hrows hlen hle
    by_cases hr : h.nrows ≤ rno
    · have hrn : rno = h.nrows := by omega
      subst hrn
      simp only [parseDataGridGo, if_pos (le_refl h.nrows)]
    · obtain ⟨hrlen, hrcells⟩ := hrows r (List.mem_cons_self r rs)
      obtain ⟨row, hrow, _⟩ :=
        parseGridRow_ok h lineno rno r 0 [] hrcells (by omega) rfl
      simp only [parseDataGridGo, if_neg hr, hrow]
      exact ih (rno + 1) (row :: acc)
        (fun u hu => hrows u (List.mem_cons_of_mem _ hu))
        (by simp only [List.length_cons] at hlen; omega)
        (by omega)

theorem parseDataGridGo_shortRow (h : Header) (lineno : Nat) :
    ∀ (rows : List (List Token)) (rno : Nat) (acc : List (List (Option Rat))),
      (∀ r ∈ rows, rowGood h r) → rno + rows.length < h.nrows →
      parseDataGridGo h lineno rows rno acc =
        .error (ParseError.shortData .Row h.nrows (lineno + (rno + rows.length) + 1)) := by
  intro rows
  induction rows with
  | nil =>
    intro rno acc _ hlen
    simp only [List.length_nil, Nat.add_zero] at hlen
    simp only [parseDataGridGo, List.length_nil, Nat.add_zero]
    rw [if_pos (by omega : rno ≠ h.nrows)]
  | cons r rs ih =>
    intro rno acc hrows hlen
    have hr : ¬ (h.nrows ≤ rno) := by
      simp only [List.length_cons] at hlen
      omega
    obtain ⟨hrlen, hrcells⟩ := hrows r (List.mem_cons_self r rs)
    obtain ⟨row, hrow, _⟩ :=
      parseGridRow_ok h lineno rno r 0 [] hrcells (by omega) rfl
    simp only [parseDataGridGo, if_neg hr, hrow]
    rw [ih (rno + 1) (row :: acc)
      (fun u hu => hrows u (List.mem_cons_of_mem _ hu))
      (by simp only [List.length_cons] at hlen; omega)]
    simp only [List.length_cons]
    have heq : rno + 1 + rs.length = rno + (rs.length + 1) := by omega
    rw [heq]

theorem parseDataGridGo_badRow (h : Header) (lineno : Nat) :
    ∀ (good : List (List Token)) (bad : List Token) (rest : List (List Token))
      (rno : Nat) (acc : List (List (Option Rat))) (e : ParseError),
      (∀ r ∈ good, rowGood h r) → rno + good.length < h.nrows →
      parseGridRow h lineno (rno + good.length) bad 0 [] = .error e →
      parseDataGridGo h lineno (good ++ bad :: rest) rno acc = .error e := by
  intro good
  induction good with
  | nil =>
    intro bad rest rno acc e _ hlen hbad
    have hr : ¬ (h.nrows ≤ rno) := by simp at hlen; omega
    simp only [List.nil_append, parseDataGridGo, if_neg hr]
    simp only [List.length_nil, Nat.add_zero] at hbad
    rw [hbad]
  | cons r rs ih =>
    intro bad rest rno acc e hrows hlen hbad
    have hr : ¬ (h.nrows ≤ rno) := by
      simp only [List.length_cons] at hlen
      omega
    obtain ⟨hrlen, hrcells⟩ := hrows r (List.mem_cons_self r rs)
    obtain ⟨row, hrow, _⟩ :=
      parseGridRow_ok h lineno rno r 0 [] hrcells (by omega) rfl
    simp only [List.cons_append, parseDataGridGo, if_neg hr, hrow]
    exact ih bad rest (rno + 1) (row :: acc) e
      (fun u hu => hrows u (List.mem_cons_of_mem _ hu))
      (by simp only [List.length_cons] at hlen; omega)
      (by have : rno + 1 + rs.length = rno + (rs.length + 1) := by omega
          rw [this]
          simpa using hbad)

theorem parseDataGridGo_post (h : Header) (lineno : Nat) :
    ∀ (rows : List (List Token)) (rno : Nat) (acc : List (List (Option Rat))) (d : Data),
      parseDataGridGo h lineno rows rno acc = .ok d → rno = acc.length →
      (∀ r ∈ acc, r.length = h.ncols) →
      ∃ g, d = .Grid g ∧ g.length = h.nrows ∧ ∀ r ∈ g, r.length = h.ncols := by
  intro rows
  induction rows with
  | nil =>
    intro rno acc d hok hacc hacclen
    simp only [parseDataGridGo] at hok
    by_cases hr : rno ≠ h.nrows
    · rw [if_pos hr] at hok
      simp at hok
    · rw [if_neg hr] at hok
      cases hok
      refine ⟨acc.reverse, rfl, ?_, ?_⟩
      · simp only [List.length_reverse]
        omega
      · intro r hr2
        exact hacclen r (List.mem_reverse.mp hr2)
  | cons r rs ih =>
    intro rno acc d hok hacc hacclen
    by_cases hr : h.nrows ≤ rno
    · simp only [parseDataGridGo, if_pos hr] at hok
      simp at hok
    · simp only [parseDataGridGo, if_neg hr] at hok
      cases hrow : parseGridRow h lineno rno r 0 [] with
      | error e =>
        rw [hrow] at hok
        simp at hok
      | ok row =>
        rw [hrow] at hok
        have hrowlen := parseGridRow_length h lineno rno r 0 [] row hrow rfl
        refine ih (rno + 1) (row :: acc) d hok (by simp [hacc]) ?_
        intro u hu
        rcases List.mem_cons.mp hu with h1 | h2
        · subst h1
          exact hrowlen
        · exact hacclen u h2

/-- C3: for a grid header with `nrows = R` and `ncols = C`, a body of
exactly `R` well-formed rows of `C` decimal cells parses successfully; a
body of `R + 1` such rows fails too-long-row; a row of `C + 1` decimal
cells (within the first `R`) fails too-long-column at its line; a row of
`C - 1` decimal cells fails too-short-column at its line; fewer than `R`
rows fails too-short-row. -/
theorem c3_grid_shape (h : Header) (lineno : Nat) (_hdf : h.data_format = DataFormat.Grid) :
    (∀ rows, (∀ r ∈ rows, rowGood h r) → rows.length = h.nrows →
      ∃ g, parseDataGrid rows h lineno = .ok (.Grid g)) ∧
    (∀ rows, (∀ r ∈ rows, rowGood h r) → rows.length = h.nrows + 1 →
      parseDataGrid rows h lineno =
        .error (ParseError.longData .Row h.nrows (lineno + h.nrows + 1))) ∧
    (∀ good bad rest, (∀ r ∈ good, rowGood h r) → good.length < h.nrows →
      (∀ t ∈ bad, cellParses t) → bad.length = h.ncols + 1 →
      parseDataGrid (good ++ bad :: rest) h lineno =
        .error (ParseError.longData .Column h.ncols (lineno + good.length + 1))) ∧
    (∀ good bad rest, (∀ r ∈ good, rowGood h r) → good.length < h.nrows →
      (∀ t ∈ bad, cellParses t) → bad.length + 1 = h.ncols →
      parseDataGrid (good ++ bad :: rest) h lineno =
        .error (ParseError.shortData .Column h.ncols (lineno + good.length + 1))) ∧
    (∀ rows, (∀ r ∈ rows, rowGood h r) → rows.length < h.nrows →
      parseDataGrid rows h lineno =
        .error (ParseError.shortData .Row h.nrows (lineno + rows.length + 1))) := by
  refine ⟨?_, ?_, ?_, ?_, ?_⟩
  · intro rows hrows hlen
    exact parseDataGridGo_ok h lineno rows 0 [] hrows (by omega) rfl
  · intro rows hrows hlen
    exact parseDataGridGo_longRow h lineno rows 0 [] hrows (by omega) (by omega)
  · intro good bad rest hgood hlt hcells hlen
    refine parseDataGridGo_badRow h lineno good bad rest 0 [] _ hgood (by omega) ?_
    have := parseGridRow_long h lineno (0 + good.length) bad 0 [] hcells (by omega) (by omega)
    rw [this]
    have heq : 0 + good.length = good.length := by omega
    rw [heq]
  · intro good bad rest hgood hlt hcells hlen
    refine parseDataGridGo_badRow h lineno good bad rest 0 [] _ hgood (by omega) ?_
    have := parseGridRow_short h lineno (0 + good.length) bad 0 [] hcells (by omega)
    rw [this]
    have heq : 0 + good.length = good.length := by omega
    rw [heq]
  · intro rows hrows hlen
    show parseDataGridGo h lineno rows 0 [] = _
    rw [parseDataGridGo_shortRow h lineno rows 0 [] hrows (by omega)]
    have heq : 0 + rows.length = rows.length := by omega
    rw [heq]

/-- Concrete minimal header used to instantiate the data-parser
theorems. -/
def gridHeader : Header :=
  { model_name := none, model_year := none, model_type := none, data_type := none
    data_units := none, data_format := .Grid, data_ordering := none, ref_ellipsoid := none
    ref_frame := none, height_datum := none, tide_system := none, coord_type := .Geodetic
    coord_units := .Deg, map_projection := none, EPSG_code := none
    data_bounds := .GridGeodetic (.Dec 0) (.Dec 1) (.Dec 0) (.Dec 1) (.Dec 1) (.Dec 1)
    nrows := 1, ncols := 1, nodata := none, creation_date := none, ISG_format := "2.0" }

/-- Data-cell token at position 0 of its line, as the tokenizer would
produce for a lone cell. -/
def mkTok (s : String) : Token :=
  ⟨s, (0, s.length), 1⟩

/-- Witness for C3 at a concrete 1-by-1 grid. -/
theorem c3_grid_shape_witness :
    ∃ g, parseDataGrid [[mkTok "1.5"]] gridHeader 30 = .ok (.Grid g) :=
  (c3_grid_shape gridHeader 30 rfl).1 [[mkTok "1.5"]] (by decide) (by decide)

/-! ## Lemmas on the sparse data parser -/

/-- Cell of a sparse data row that parses as a coordinate of the variant
matching `coord_units`, as parse.rs `parse_data_sparse` requires. -/
def sparseCellOk (h : Header) (t : Token) : Bool :=
  match Coord.fromStr (strTrim t.value) with
  | .ok c => isValidAngle h.coord_units c
  | .error _ => false

/-- Well-formed sparse data row: exactly three cells, two matching
coordinates and one decimal. -/
def sparseRowGood (h : Header) : List Token → Prop
  | [ta, tb, tc] => sparseCellOk h ta = true ∧ sparseCellOk h tb = true ∧ cellParses tc
  | _ => False

instance (h : Header) : ∀ tokens, Decidable (sparseRowGood h tokens)
  | [] => isFalse fun hh => hh
  | [_] => isFalse fun hh => hh
  | [_, _] => isFalse fun hh => hh
  | [_, _, _] => by unfold sparseRowGood; infer_instance
  | _ :: _ :: _ :: _ :: _ => isFalse fun hh => hh

theorem parseSparseRow_ok (h : Header) (lineno rno : Nat) (ta tb tc : Token)
    (ha : sparseCellOk h ta = true) (hb : sparseCellOk h tb = true) (hc : cellParses tc) :
    ∃ a b c, parseSparseRow h lineno rno [ta, tb, tc] = .ok (a, b, c) ∧
      isValidAngle h.coord_units a = true ∧ isValidAngle h.coord_units b = true := by
  unfold sparseCellOk at ha hb
  unfold cellParses at hc
  cases hca : Coord.fromStr (strTrim ta.value) with
  | error e =>
    rw [hca] at ha
    exact absurd ha (by decide : ¬ (false = true))
  | ok a =>
    rw [hca] at ha
    replace ha : isValidAngle h.coord_units a = true := ha
    cases hcb : Coord.fromStr (strTrim tb.value) with
    | error e =>
      rw [hcb] at hb
      exact absurd hb (by decide : ¬ (false = true))
    | ok b =>
      rw [hcb] at hb
      replace hb : isValidAngle h.coord_units b = true := hb
      obtain ⟨c, hcc⟩ := Option.isSome_iff_exists.mp hc
      refine ⟨a, b, c, ?_, ha, hb⟩
      simp [parseSparseRow, hca, hcb, hcc, ha, hb]

theorem parseSparseRow_shortCol (h : Header) (lineno rno : Nat) :
    ∀ tokens, tokens.length < 3 → (∀ t ∈ tokens, sparseCellOk h t = true) →
      parseSparseRow h lineno rno tokens =
        .error (ParseError.shortData .Column h.ncols (lineno + rno + 1)) := by
  intro tokens hlen hcells
  match tokens with
  | [] => simp [parseSparseRow]
  | [ta] =>
    have ha := hcells ta (by simp)
    unfold sparseCellOk at ha
    cases hca : Coord.fromStr (strTrim ta.value) with
    | error e =>
      rw [hca] at ha
      exact absurd ha (by decide : ¬ (false = true))
    | ok a =>
      rw [hca] at ha
      replace ha : isValidAngle h.coord_units a = true := ha
      simp [parseSparseRow, hca, ha]
  | [ta, tb] =>
    have ha := hcells ta (by simp)
    have hb := hcells tb (by simp)
    unfold sparseCellOk at ha hb
    cases hca : Coord.fromStr (strTrim ta.value) with
    | error e =>
      rw [hca] at ha
      exact absurd ha (by decide : ¬ (false = true))
    | ok a =>
      rw [hca] at ha
      replace ha : isValidAngle h.coord_units a = true := ha
      cases hcb : Coord.fromStr (strTrim tb.value) with
      | error e =>
        rw [hcb] at hb
        exact absurd hb (by decide : ¬ (false = true))
      | ok b =>
        rw [hcb] at hb
        replace hb : isValidAngle h.coord_units b = true := hb
        simp [parseSparseRow, hca, ha, hcb, hb]
  | _ :: _ :: _ :: _ :: _ =>
    simp only [List.length_cons] at hlen
    omega

theorem parseSparseRow_longCol (h : Header) (lineno rno : Nat) (ta tb tc : Token)
    (rest : List Token) (hrest : rest ≠ [])
    (ha : sparseCellOk h ta = true) (hb : sparseCellOk h tb = true) (hc : cellParses tc) :
    parseSparseRow h lineno rno (ta :: tb :: tc :: rest) =
      .error (ParseError.longData .Column h.ncols (lineno + rno + 1)) := by
  unfold sparseCellOk at ha hb
  unfold cellParses at hc
  cases hca : Coord.fromStr (strTrim ta.value) with
  | error e =>
    rw [hca] at ha
    exact absurd ha (by decide : ¬ (false = true))
  | ok a =>
    rw [hca] at ha
    replace ha : isValidAngle h.coord_units a = true := ha
    cases hcb : Coord.fromStr (strTrim tb.value) with
    | error e =>
      rw [hcb] at hb
      exact absurd hb (by decide : ¬ (false = true))
    | ok b =>
      rw [hcb] at hb
      replace hb : isValidAngle h.coord_units b = true := hb
      obtain ⟨c, hcc⟩ := Option.isSome_iff_exists.mp hc
      have : rest.isEmpty = false := by
        cases rest with
        | nil => exact absurd rfl hrest
        | cons x xs => rfl
      simp [parseSparseRow, hca, hcb, hcc, ha, hb, this]

theorem parseSparseRow_invalidCoord (h : Header) (lineno rno : Nat) (ta : Token)
    (rest : List Token) (a : Coord)
    (hca : Coord.fromStr (strTrim ta.value) = .ok a)
    (ha : isValidAngle h.coord_units a = false) :
    parseSparseRow h lineno rno (ta :: rest) = .error (ParseError.invalidData ta) := by
  simp [parseSparseRow, hca, ha]

theorem parseSparseRow_post (h : Header) (lineno rno : Nat) :
    ∀ (tokens : List Token) (a b : Coord) (c : Rat),
      parseSparseRow h lineno rno tokens = .ok (a, b, c) →
      isValidAngle h.coord_units a = true ∧ isValidAngle h.coord_units b = true := by
  intro tokens a b c hok
  unfold parseSparseRow at hok
  repeat' split at hok
  all_goals simp_all

/-! ## Lemmas on the sparse row loop -/

theorem parseDataSparseGo_ok (h : Header) (lineno : Nat) :
    ∀ (rows : List (List Token)) (rno : Nat) (acc : List (Coord × Coord × Rat)),
      (∀ r ∈ rows, sparseRowGood h r) → rno + rows.length = h.nrows → rno = acc.length →
      ∃ ts, parseDataSparseGo h lineno rows rno acc = .ok (.Sparse ts) := by
  intro rows
  induction rows with
  | nil =>
    intro rno acc _ hlen hacc
    simp only [List.length_nil, Nat.add_zero] at hlen
    refine ⟨acc.reverse, ?_⟩
    simp only [parseDataSparseGo]
    rw [if_neg (by omega : ¬ rno ≠ h.nrows)]
  | cons r rs ih =>
    intro rno acc hrows hlen hacc
    have hr : ¬ (h.nrows ≤ rno) := by
      simp only [List.length_cons] at hlen
      omega
    have hgood := hrows r (List.mem_cons_self r rs)
    match r, hgood with
    | [ta, tb, tc], hgood =>
      obtain ⟨ha, hb, hc⟩ := hgood
      obtain ⟨a, b, c, hrow, _, _⟩ := parseSparseRow_ok h lineno rno ta tb tc ha hb hc
      simp only [parseDataSparseGo, if_neg hr, hrow]
      exact ih (rno + 1) ((a, b, c) :: acc)
        (fun u hu => hrows u (List.mem_cons_of_mem _ hu))
        (by simp only [List.length_cons] at hlen; omega)
        (by simp [hacc])

theorem parseDataSparseGo_longRow (h : Header) (lineno : Nat) :
    ∀ (rows : List (List Token)) (rno : Nat) (acc : List (Coord × Coord × Rat)),
      (∀ r ∈ rows, sparseRowGood h r) → h.nrows < rno + rows.length → rno ≤ h.nrows →
      parseDataSparseGo h lineno rows rno acc =
        .error (ParseError.longData .Row h.nrows (lineno + h.nrows + 1)) := by
  intro rows
  induction rows with
  | nil =>
    intro rno acc _ hlen hle
    simp only [List.length_nil] at hlen
    omega
  | cons r rs ih =>
    intro rno acc hrows hlen hle
    by_cases hr : h.nrows ≤ rno
    · have hrn : rno = h.nrows := by omega
      subst hrn
      simp only [parseDataSparseGo, if_pos (le_refl h.nrows)]
    · have hgood := hrows r (List.mem_cons_self r rs)
      match r, hgood with
      | [ta, tb, tc], hgood =>
        obtain ⟨ha, hb, hc⟩ := hgood
        obtain ⟨a, b, c, hrow, _, _⟩ := parseSparseRow_ok h lineno rno ta tb tc ha hb hc
        simp only [parseDataSparseGo, if_neg hr, hrow]
        exact ih (rno + 1) ((a, b, c) :: acc)
          (fun u hu => hrows u (List.mem_cons_of_mem _ hu))
          (by simp only [List.length_cons] at hlen; omega)
          (by omega)

theorem parseDataSparseGo_shortRow (h : Header) (lineno : Nat) :
    ∀ (rows : List (List Token)) (rno : Nat) (acc : List (Coord × Coord × Rat)),
      (∀ r ∈ rows, sparseRowGood h r) → rno + rows.length < h.nrows →
      parseDataSparseGo h lineno rows rno acc =
        .error (ParseError.shortData .Row h.nrows (lineno + (rno + rows.length) + 1)) := by
  intro rows
  induction rows with
  | nil =>
    intro rno acc _ hlen
    simp only [List.length_nil, Nat.add_zero] at hlen
    simp only [parseDataSparseGo, List.length_nil, Nat.add_zero]
    rw [if_pos (by omega : rno ≠ h.nrows)]
  | cons r rs ih =>
    intro rno acc hrows hlen
    have hr : ¬ (h.nrows ≤ rno) := by
      simp only [List.length_cons] at hlen
      omega
    have hgood := hrows r (List.mem_cons_self r rs)
    match r, hgood with
    | [ta, tb, tc], hgood =>
      obtain ⟨ha, hb, hc⟩ := hgood
      obtain ⟨a, b, c, hrow, _, _⟩ := parseSparseRow_ok h lineno rno ta tb tc ha hb hc
      simp only [parseDataSparseGo, if_neg hr, hrow]
      rw [ih (rno + 1) ((a, b, c) :: acc)
        (fun u hu => hrows u (List.mem_cons_of_mem _ hu))
        (by simp only [List.length_cons] at hlen; omega)]
      simp only [List.length_cons]
      have heq : rno + 1 + rs.length = rno + (rs.length + 1) := by omega
      rw [heq]

theorem parseDataSparseGo_badRow (h : Header) (lineno : Nat) :
    ∀ (good : List (List Token)) (bad : List Token) (rest : List (List Token))
      (rno : Nat) (acc : List (Coord × Coord × Rat)) (e : ParseError),
      (∀ r ∈ good, sparseRowGood h r) → rno + good.length < h.nrows →
      parseSparseRow h lineno (rno + good.length) bad = .error e →
      parseDataSparseGo h lineno (good ++ bad :: rest) rno acc = .error e := by
  intro good
  induction good with
  | nil =>
    intro bad rest rno acc e _ hlen hbad
    have hr : ¬ (h.nrows ≤ rno) := by simp at hlen; omega
    simp only [List.nil_append, parseDataSparseGo, if_neg hr]
    simp only [List.length_nil, Nat.add_zero] at hbad
    rw [hbad]
  | cons r rs ih =>
    intro bad rest rno acc e hrows hlen hbad
    have hr : ¬ (h.nrows ≤ rno) := by
      simp only [List.length_cons] at hlen
      omega
    have hgood := hrows r (List.mem_cons_self r rs)
    match r, hgood with
    | [ta, tb, tc], hgood =>
      obtain ⟨ha, hb, hc⟩ := hgood
      obtain ⟨a, b, c, hrow, _, _⟩ := parseSparseRow_ok h lineno rno ta tb tc ha hb hc
      simp only [List.cons_append, parseDataSparseGo, if_neg hr, hrow]
      exact ih bad rest (rno + 1) ((a, b, c) :: acc) e
        (fun u hu => hrows u (List.mem_cons_of_mem _ hu))
        (by simp only [List.length_cons] at hlen; omega)
        (by have heq : rno + 1 + rs.length = rno + (rs.length + 1) := by omega
            rw [heq]
            simpa using hbad)

theorem parseDataSparseGo_post (h : Header) (lineno : Nat) :
    ∀ (rows : List (List Token)) (rno : Nat) (acc : List (Coord × Coord × Rat)) (d : Data),
      parseDataSparseGo h lineno rows rno acc = .ok d → rno = acc.length →
      (∀ t ∈ acc, isValidAngle h.coord_units t.1 = true ∧ isValidAngle h.coord_units t.2.1 = true) →
      ∃ ts, d = .Sparse ts ∧ ts.length = h.nrows ∧
        ∀ t ∈ ts, isValidAngle h.coord_units t.1 = true ∧ isValidAngle h.coord_units t.2.1 = true := by
  intro rows
  induction rows with
  | nil =>
    intro rno acc d hok hacc haccv
    simp only [parseDataSparseGo] at hok
    by_cases hr : rno ≠ h.nrows
    · rw [if_pos hr] at hok
      simp at hok
    · rw [if_neg hr] at hok
      cases hok
      refine ⟨acc.reverse, rfl, ?_, ?_⟩
      · simp only [List.length_reverse]
        omega
      · intro t ht
        exact haccv t (List.mem_reverse.mp ht)
  | cons r rs ih =>
    intro rno acc d hok hacc haccv
    by_cases hr : h.nrows ≤ rno
    · simp only [parseDataSparseGo, if_pos hr] at hok
      simp at hok
    · simp only [parseDataSparseGo, if_neg hr] at hok
      cases hrow : parseSparseRow h lineno rno r with
      | error e =>
        rw [hrow] at hok
        simp at hok
      | ok triple =>
        rw [hrow] at hok
        obtain ⟨hva, hvb⟩ := parseSparseRow_post h lineno rno r triple.1 triple.2.1 triple.2.2 (by simpa using hrow)
        refine ih (rno + 1) (triple :: acc) d hok (by simp [hacc]) ?_
        intro u hu
        rcases List.mem_cons.mp hu with h1 | h2
        · subst h1
          exact ⟨hva, hvb⟩
        · exact haccv u h2

/-- C5: for a sparse header, a body whose rows each hold exactly two
matching coordinates and a decimal parses successfully; a row with fewer
than three cells fails too-short-column at its line; a row with more
than three fails too-long-column; a coordinate cell of the wrong variant
fails with an invalid-data error; and the row count is checked against
`nrows` with the same too-long/too-short row errors as the grid
parser. -/
theorem c5_sparse_rows (h : Header) (lineno : Nat) (_hdf : h.data_format = DataFormat.Sparse) :
    (∀ rows, (∀ r ∈ rows, sparseRowGood h r) → rows.length = h.nrows →
      ∃ ts, parseDataSparse rows h lineno = .ok (.Sparse ts)) ∧
    (∀ good bad rest, (∀ r ∈ good, sparseRowGood h r) → good.length < h.nrows →
      bad.length < 3 → (∀ t ∈ bad, sparseCellOk h t = true) →
      parseDataSparse (good ++ bad :: rest) h lineno =
        .error (ParseError.shortData .Column h.ncols (lineno + good.length + 1))) ∧
    (∀ good ta tb tc extra rest, (∀ r ∈ good, sparseRowGood h r) → good.length < h.nrows →
      extra ≠ [] → sparseCellOk h ta = true → sparseCellOk h tb = true → cellParses tc →
      parseDataSparse (good ++ (ta :: tb :: tc :: extra) :: rest) h lineno =
        .error (ParseError.longData .Column h.ncols (lineno + good.length + 1))) ∧
    (∀ good ta cells rest a, (∀ r ∈ good, sparseRowGood h r) → good.length < h.nrows →
      Coord.fromStr (strTrim ta.value) = .ok a → isValidAngle h.coord_units a = false →
      parseDataSparse (good ++ (ta :: cells) :: rest) h lineno =
        .error (ParseError.invalidData ta)) ∧
    (∀ rows, (∀ r ∈ rows, sparseRowGood h r) → rows.length = h.nrows + 1 →
      parseDataSparse rows h lineno =
        .error (ParseError.longData .Row h.nrows (lineno + h.nrows + 1))) ∧
    (∀ rows, (∀ r ∈ rows, sparseRowGood h r) → rows.length < h.nrows →
      parseDataSparse rows h lineno =
        .error (ParseError.shortData .Row h.nrows (lineno + rows.length + 1))) := by
  refine ⟨?_, ?_, ?_, ?_, ?_, ?_⟩
  · intro rows hrows hlen
    exact parseDataSparseGo_ok h lineno rows 0 [] hrows (by omega) rfl
  · intro good bad rest hgood hlt hblen hbcells
    refine parseDataSparseGo_badRow h lineno good bad rest 0 [] _ hgood (by omega) ?_
    rw [parseSparseRow_shortCol h lineno (0 + good.length) bad hblen hbcells]
    have heq : 0 + good.length = good.length := by omega
    rw [heq]
  · intro good ta tb tc extra rest hgood hlt hextra ha hb hc
    refine parseDataSparseGo_badRow h lineno good _ rest 0 [] _ hgood (by omega) ?_
    rw [parseSparseRow_longCol h lineno (0 + good.length) ta tb tc extra hextra ha hb hc]
    have heq : 0 + good.length = good.length := by omega
    rw [heq]
  · intro good ta cells rest a hgood hlt hca hva
    exact parseDataSparseGo_badRow h lineno good _ rest 0 [] _ hgood (by omega)
      (parseSparseRow_invalidCoord h lineno (0 + good.length) ta cells a hca hva)
  · intro rows hrows hlen
    exact parseDataSparseGo_longRow h lineno rows 0 [] hrows (by omega) (by omega)
  · intro rows hrows hlen
    show parseDataSparseGo h lineno rows 0 [] = _
    rw [parseDataSparseGo_shortRow h lineno rows 0 [] hrows (by omega)]
    have heq : 0 + rows.length = rows.length := by omega
    rw [heq]

/-- Concrete minimal sparse header used to instantiate the data-parser
theorems. -/
def sparseHeader : Header :=
  { model_name := none, model_year := none, model_type := none, data_type := none
    data_units := none, data_format := .Sparse, data_ordering := none, ref_ellipsoid := none
    ref_frame := none, height_datum := none, tide_system := none, coord_type := .Geodetic
    coord_units := .Deg, map_projection := none, EPSG_code := none
    data_bounds := .SparseGeodetic (.Dec 0) (.Dec 1) (.Dec 0) (.Dec 1)
    nrows := 1, ncols := 3, nodata := none, creation_date := none, ISG_format := "2.0" }

/-- Witness for C5: a concrete two-cell sparse row fails too-short-column
at its own line number. -/
theorem c5_sparse_rows_witness :
    parseDataSparse [[mkTok "1.5", mkTok "2.5"]] sparseHeader 30 =
      .error (ParseError.shortData .Column 3 31) :=
  (c5_sparse_rows sparseHeader 30 rfl).2.1 [] [mkTok "1.5", mkTok "2.5"] []
    (by decide) (by decide) (by decide) (by decide)

/-! ## Bounds-variant exclusivity -/

/-- C4: under `coord type = geodetic` the six Projected-only keys must be
absent — the first present one (in check order), whatever its value,
fails the bounds resolution with an invalid-data-bounds error naming
that key and the active coord type; symmetrically under
`coord type = projected` for the six Geodetic-only keys. -/
theorem c4_bounds_exclusivity (st : HeaderStore) (df : DataFormat) (cu : CoordUnits)
    (ct : CoordType) (t : Token) :
    ((st.north_min = some t →
      DataBounds.withGeodetic st df cu ct = .error (ParseError.invalidDataBounds .NorthMin ct t)) ∧
     (st.north_min = none → st.north_max = some t →
      DataBounds.withGeodetic st df cu ct = .error (ParseError.invalidDataBounds .NorthMax ct t)) ∧
     (st.north_min = none → st.north_max = none → st.east_min = some t →
      DataBounds.withGeodetic st df cu ct = .error (ParseError.invalidDataBounds .EastMin ct t)) ∧
     (st.north_min = none → st.north_max = none → st.east_min = none → st.east_max = some t →
      DataBounds.withGeodetic st df cu ct = .error (ParseError.invalidDataBounds .EastMax ct t)) ∧
     (st.north_min = none → st.north_max = none → st.east_min = none → st.east_max = none →
      st.delta_north = some t →
      DataBounds.withGeodetic st df cu ct = .error (ParseError.invalidDataBounds .DeltaNorth ct t)) ∧
     (st.north_min = none → st.north_max = none → st.east_min = none → st.east_max = none →
      st.delta_north = none → st.delta_east = some t →
      DataBounds.withGeodetic st df cu ct = .error (ParseError.invalidDataBounds .DeltaEast ct t))) ∧
    ((st.lat_min = some t →
      DataBounds.withProjected st df cu ct = .error (ParseError.invalidDataBounds .LatMin ct t)) ∧
     (st.lat_min = none → st.lat_max = some t →
      DataBounds.withProjected st df cu ct = .error (ParseError.invalidDataBounds .LatMax ct t)) ∧
     (st.lat_min = none → st.lat_max = none → st.lon_min = some t →
      DataBounds.withProjected st df cu ct = .error (ParseError.invalidDataBounds .LonMin ct t)) ∧
     (st.lat_min = none → st.lat_max = none → st.lon_min = none → st.lon_max = some t →
      DataBounds.withProjected st df cu ct = .error (ParseError.invalidDataBounds .LonMax ct t)) ∧
     (st.lat_min = none → st.lat_max = none → st.lon_min = none → st.lon_max = none →
      st.delta_lat = some t →
      DataBounds.withProjected st df cu ct = .error (ParseError.invalidDataBounds .DeltaLat ct t)) ∧
     (st.lat_min = none → st.lat_max = none → st.lon_min = none → st.lon_max = none →
      st.delta_lat = none → st.delta_lon = some t →
      DataBounds.withProjected st df cu ct = .error (ParseError.invalidDataBounds .DeltaLon ct t))) := by
  constructor
  · refine ⟨?_, ?_, ?_, ?_, ?_, ?_⟩ <;>
      · intros
        unfold DataBounds.withGeodetic
        simp_all
  · refine ⟨?_, ?_, ?_, ?_, ?_, ?_⟩ <;>
      · intros
        unfold DataBounds.withProjected
        simp_all

/-- Placeholder-valued token, as a header line `north min = ---` yields. -/
def placeholderTok : Token :=
  ⟨"---", (17, 20), 5⟩

/-- Witness for C4: a geodetic store carrying `north min` with the
placeholder value still fails with the invalid-data-bounds error. -/
theorem c4_bounds_exclusivity_witness :
    DataBounds.withGeodetic { north_min := some placeholderTok } .Grid .Deg .Geodetic =
      .error (ParseError.invalidDataBounds .NorthMin .Geodetic placeholderTok) :=
  (c4_bounds_exclusivity { north_min := some placeholderTok } .Grid .Deg .Geodetic
    placeholderTok).1.1 rfl

/-! ## Validator ordering -/

/-- C6: `validate` reports only the first violation, in the fixed order
format-version, then bounds-variant match against
`(data_format, coord_type)`, then per-field coordinate-unit check on the
active `data_bounds` variant, then the data checks; in particular any
`ISG_format` other than `2.0` yields the format-version error whatever
else is wrong. -/
theorem c6_validator_order (isg : ISG) :
    (isg.header.ISG_format ≠ "2.0" → isg.validate = .error ⟨.ISGFormat⟩) ∧
    (isg.header.ISG_format = "2.0" →
      boundsVariantMatches isg.header.data_format isg.header.coord_type
        isg.header.data_bounds = false →
      isg.validate = .error ⟨.DataBounds isg.header.data_format isg.header.coord_type⟩) ∧
    (∀ e, isg.header.ISG_format = "2.0" →
      boundsVariantMatches isg.header.data_format isg.header.coord_type
        isg.header.data_bounds = true →
      validateBoundsCoords isg.header.coord_units isg.header.data_bounds = .error e →
      isg.validate = .error e) ∧
    (isg.header.validate = .ok () → isg.validate = isg.data.validate isg.header) := by
  refine ⟨?_, ?_, ?_, ?_⟩
  · intro hfmt
    unfold ISG.validate Header.validate
    rw [if_pos hfmt]
  · intro hfmt hvar
    unfold ISG.validate Header.validate
    rw [if_neg (by simp [hfmt]), if_pos (by simp [hvar])]
  · intro e hfmt hvar hcoords
    unfold ISG.validate Header.validate
    rw [if_neg (by simp [hfmt]), if_neg (by simp [hvar]), hcoords]
  · intro hok
    unfold ISG.validate
    rw [hok]

/-- Document with a wrong format version and, at the same time, a
mismatched bounds variant and a wrong data length. -/
def badVersionIsg : ISG :=
  { comment := ""
    header :=
      { model_name := none, model_year := none, model_type := none, data_type := none
        data_units := none, data_format := .Grid, data_ordering := none, ref_ellipsoid := none
        ref_frame := none, height_datum := none, tide_system := none, coord_type := .Geodetic
        coord_units := .Deg, map_projection := none, EPSG_code := none
        data_bounds := .SparseGeodetic (.Dec 0) (.Dec 1) (.Dec 0) (.Dec 1)
        nrows := 1, ncols := 1, nodata := none, creation_date := none, ISG_format := "1.0" }
    data := .Grid [] }

/-- Witness for C6: the format-version error wins on a document that
also has a mismatched bounds variant and a wrong row count. -/
theorem c6_validator_order_witness :
    badVersionIsg.validate = .error ⟨.ISGFormat⟩ :=
  (c6_validator_order badVersionIsg).1 (by decide)

/-! ## Duplicated header keys -/

/-- Slot of the store holding a given header field. -/
def HeaderStore.slot (st : HeaderStore) : HeaderField → Option Token
  | .ModelName => st.model_name
  | .ModelYear => st.model_year
  | .ModelType => st.model_type
  | .DataType => st.data_type
  | .DataUnits => st.data_units
  | .DataFormat => st.data_format
  | .DataOrdering => st.data_ordering
  | .RefEllipsoid => st.ref_ellipsoid
  | .RefFrame => st.ref_frame
  | .HeightDatum => st.height_datum
  | .TideSystem => st.tide_system
  | .CoordType => st.coord_type
  | .CoordUnits => st.coord_units
  | .MapProjection => st.map_projection
  | .EpsgCode => st.epsg_code
  | .LatMin => st.lat_min
  | .LatMax => st.lat_max
  | .NorthMin => st.north_min
  | .NorthMax => st.north_max
  | .LonMin => st.lon_min
  | .LonMax => st.lon_max
  | .EastMin => st.east_min
  | .EastMax => st.east_max
  | .DeltaLat => st.delta_lat
  | .DeltaLon => st.delta_lon
  | .DeltaNorth => st.delta_north
  | .DeltaEast => st.delta_east
  | .NRows => st.nrows
  | .NCols => st.ncols
  | .NoData => st.nodata
  | .CreationDate => st.creation_date
  | .IsgFormat => st.isg_format

theorem HeaderStore.set_dup (st : HeaderStore) (f : HeaderField) (k v : Token)
    (h : (st.slot f).isSome = true) :
    st.set f k v = .error (ParseError.dupHeader f k) := by
  cases f <;> simp_all [HeaderStore.set, HeaderStore.slot]

theorem HeaderStore.set_ok (st : HeaderStore) (f : HeaderField) (k v : Token)
    (h : (st.slot f).isSome = false) :
    ∃ st', st.set f k v = .ok st' := by
  cases f <;> simp_all [HeaderStore.set, HeaderStore.slot]

theorem HeaderStore.set_slot (st : HeaderStore) (f : HeaderField) (k v : Token)
    (st' : HeaderStore) (h : st.set f k v = .ok st') :
    ∀ g, st'.slot g = if g = f then some v else st.slot g := by
  intro g
  cases f <;>
    · simp only [HeaderStore.set] at h
      split at h
      · exact absurd h (by simp)
      · cases h
        cases g <;> simp [HeaderStore.slot]

/-- Recognized header-field key of a tokenized header line, when the
line has a separator and a known key. -/
def lineKey (p : Nat × String) : Option HeaderField :=
  match findSep p.2 with
  | none => none
  | some pos => HeaderField.fromStr (headerKeyToken p.2 pos (p.1 + 1)).value

theorem emptyStore_slot (g : HeaderField) : (({} : HeaderStore).slot g) = none := by
  cases g <;> rfl

theorem fromLines_process :
    ∀ (pre suffix : List (Nat × String)) (st : HeaderStore),
      (∀ p ∈ pre, strStartsWith p.2 "end_of_head" = false) →
      (∀ p ∈ pre, ∀ g, lineKey p = some g → (st.slot g).isSome = false) →
      (pre.map lineKey).Nodup →
      (∀ p ∈ pre, (lineKey p).isSome = true) →
      ∃ st', HeaderStore.fromLines (pre ++ suffix) st = HeaderStore.fromLines suffix st' ∧
        (∀ g, (st'.slot g).isSome = true ↔
          ((st.slot g).isSome = true ∨ some g ∈ pre.map lineKey)) := by
  intro pre
  induction pre with
  | nil =>
    intro suffix st _ _ _ _
    exact ⟨st, by simp, by simp⟩
  | cons p pre' ih =>
    intro suffix st heoh habsent hnodup hkeys
    obtain ⟨i, line⟩ := p
    obtain ⟨g0, hg0⟩ :=
      Option.isSome_iff_exists.mp (hkeys (i, line) (List.mem_cons_self _ _))
    unfold lineKey at hg0
    cases hfs : findSep line with
    | none => rw [hfs] at hg0; simp at hg0
    | some pos =>
      rw [hfs] at hg0
      replace hg0 : HeaderField.fromStr (headerKeyToken line pos (i + 1)).value = some g0 := hg0
      have hkey_p : lineKey (i, line) = some g0 := by
        unfold lineKey
        rw [hfs]
        exact hg0
      have hset := habsent (i, line) (List.mem_cons_self _ _) g0 hkey_p
      obtain ⟨st1, hst1⟩ :=
        HeaderStore.set_ok st g0 (headerKeyToken line pos (i + 1))
          (headerValueToken line pos (i + 1)) hset
      have hslots := HeaderStore.set_slot st g0 (headerKeyToken line pos (i + 1))
        (headerValueToken line pos (i + 1)) st1 hst1
      have hstep :
          HeaderStore.fromLines (((i, line) :: pre') ++ suffix) st =
            HeaderStore.fromLines (pre' ++ suffix) st1 := by
        simp only [List.cons_append, HeaderStore.fromLines]
        rw [if_neg (by simpa using heoh (i, line) (List.mem_cons_self _ _))]
        simp only [hfs, hg0, hst1, List.append_eq]
      have hnotin : some g0 ∉ pre'.map lineKey := by
        have hh := hnodup
        rw [List.map_cons, List.nodup_cons, hkey_p] at hh
        exact hh.1
      obtain ⟨st', hrest, hiff⟩ := ih suffix st1
        (fun q hq => heoh q (List.mem_cons_of_mem _ hq))
        (by intro q hq g hk
            rw [hslots g]
            by_cases hgg : g = g0
            · subst hgg
              exact absurd (hk ▸ List.mem_map_of_mem lineKey hq) hnotin
            · rw [if_neg hgg]
              exact habsent q (List.mem_cons_of_mem _ hq) g hk)
        (by have hh := hnodup; rw [List.map_cons, List.nodup_cons] at hh; exact hh.2)
        (fun q hq => hkeys q (List.mem_cons_of_mem _ hq))
      refine ⟨st', by rw [hstep, hrest], ?_⟩
      intro g
      rw [hiff g, hslots g, List.map_cons, hkey_p, List.mem_cons]
      by_cases hgg : g = g0
      · subst hgg
        simp
      · rw [if_neg hgg]
        constructor
        · rintro (h1 | h2)
          · exact Or.inl h1
          · exact Or.inr (Or.inr h2)
        · rintro (h1 | h2 | h3)
          · exact Or.inl h1
          · exact absurd (Option.some.inj h2) hgg
          · exact Or.inr h3

/-- C7: a header block whose lines all carry recognized keys and whose
first duplicate is the key `f` fails with the duplicated-key error
naming `f` and carrying the second occurrence's key token (its span and
line number), whatever the values of the other fields are. -/
theorem c7_dup_key (pre : List (Nat × String)) (dup : Nat × String)
    (rest : List (Nat × String)) (f : HeaderField) (pos : Nat)
    (heoh : ∀ p ∈ pre, strStartsWith p.2 "end_of_head" = false)
    (hkeys : ∀ p ∈ pre, (lineKey p).isSome = true)
    (hnodup : (pre.map lineKey).Nodup)
    (hdeoh : strStartsWith dup.2 "end_of_head" = false)
    (hdsep : findSep dup.2 = some pos)
    (hdkey : HeaderField.fromStr (headerKeyToken dup.2 pos (dup.1 + 1)).value = some f)
    (hmem : some f ∈ pre.map lineKey) :
    HeaderStore.fromLines (pre ++ dup :: rest) {} =
      .error (ParseError.dupHeader f (headerKeyToken dup.2 pos (dup.1 + 1))) := by
  obtain ⟨st', heq, hiff⟩ := fromLines_process pre (dup :: rest) {}
    heoh (by intro p hp g hk; rw [emptyStore_slot g]; rfl) hnodup hkeys
  rw [heq]
  have hf : (st'.slot f).isSome = true := by
    rw [hiff f]
    exact Or.inr hmem
  cases dup with
  | mk i line =>
    simp only [HeaderStore.fromLines]
    rw [if_neg (by simpa using hdeoh)]
    simp only [hdsep, hdkey]
    rw [HeaderStore.set_dup st' f (headerKeyToken line pos (i + 1))
      (headerValueToken line pos (i + 1)) hf]

/-- Witness for C7: `nrows` given on two lines (with different separators
and values) fails with the duplicated-key error naming `nrows` at the
second line. -/
theorem c7_dup_key_witness :
    HeaderStore.fromLines [(1, "nrows : 1"), (2, "nrows = 2")] {} =
      .error (ParseError.dupHeader .NRows ⟨"nrows", (0, 5), 3⟩) :=
  c7_dup_key [(1, "nrows : 1")] (2, "nrows = 2") [] .NRows 6
    (by decide) (by decide) (by decide) (by decide) (by decide) (by decide) (by decide)

/-! ## Coordinate grammar -/

/-- DMS-shaped text `<d>°<m>\x27<s>"` assembled from its three parts. -/
def dmsStr (d m s : String) : String :=
  d ++ "°" ++ m ++ apos ++ s ++ "\""

/-- C8: coordinate parsing tries the decimal grammar first and on success
returns the `Dec` variant; only on decimal failure is the DMS grammar
tried, and every successful non-decimal parse is a `DMS` value; the
grammar does not range-check minutes/seconds to 0–59 (`99` is accepted),
only the `u8`/`i16` storage widths bound them (`256` is rejected); the
degree may be signed; and no surrounding characters are permitted. -/
theorem c8_coord_grammar :
    (∀ s v, parseF64 s = some v → Coord.fromStr s = .ok (.Dec v)) ∧
    (∀ s c, parseF64 s = none → Coord.fromStr s = .ok c →
      ∃ d m sec, c = .DMS d m sec) ∧
    Coord.fromStr (dmsStr "1" "99" "99") = .ok (.DMS 1 99 99) ∧
    Coord.fromStr (dmsStr "1" "256" "00") = .error "00" ∧
    Coord.fromStr (dmsStr "-12" "34" "56") = .ok (.DMS (-12) 34 56) ∧
    Coord.fromStr ("x" ++ dmsStr "1" "02" "03") = .error "03" ∧
    Coord.fromStr (dmsStr "1" "02" "03" ++ "x") = .error "03" := by
  refine ⟨?_, ?_, by decide, by decide, by decide, by decide, by decide⟩
  · intro s v h
    unfold Coord.fromStr
    rw [h]
  · intro s c hnone hok
    unfold Coord.fromStr at hok
    rw [hnone] at hok
    repeat' split at hok
    all_goals first
      | (simp_all
         done)
      | (injection hok with h
         exact ⟨_, _, _, h.symm⟩)

/-- Witness for C8: a decimal text yields the decimal variant. -/
theorem c8_coord_grammar_witness :
    Coord.fromStr "1.5" = .ok (.Dec (mkRat 3 2)) :=
  c8_coord_grammar.1 "1.5" (mkRat 3 2) (by decide)

/-! ## Nodata sentinel on serialization -/

theorem gridCellStr_none_fun :
    gridCellStr none = fun c =>
      match c with
      | none => "-9999.9999"
      | some v => fmtFixedPad 10 v 4 := by
  funext c
  cases c <;> rfl

/-- C10: serializing a grid document whose header has no `nodata` value
never fails (the serializer is total) and renders every absent cell as
exactly the literal `-9999.9999`, the present cells at fixed `{:10.4}`
width. -/
theorem c10_nodata_sentinel (isg : ISG) (rows : List (List (Option Rat)))
    (hnd : isg.header.nodata = none) (hdata : isg.data = .Grid rows) :
    to_string isg =
      (if isg.comment ≠ "" then
        isg.comment ++ (if lastCharIs isg.comment '\n' then "" else "\n")
      else "") ++
      bohLine ++
      isg.header.display ++
      eohLine ++
      String.join (rows.map fun row =>
        String.intercalate " " (row.map fun c =>
          match c with
          | none => "-9999.9999"
          | some v => fmtFixedPad 10 v 4) ++ "\n") := by
  unfold to_string Data.display
  rw [hdata, hnd, gridCellStr_none_fun]

/-- Witness for C10: a 1-by-1 grid with one absent cell and no `nodata`
serializes its data section to the sentinel literal. -/
theorem c10_nodata_sentinel_witness :
    to_string ⟨"", gridHeader, .Grid [[none]]⟩ =
      bohLine ++
      gridHeader.display ++
      eohLine ++
      "-9999.9999\n" := by
  rw [c10_nodata_sentinel ⟨"", gridHeader, .Grid [[none]]⟩ [[none]] rfl rfl]
  decide

/-! ## Parsed documents versus the validator -/

theorem check_eq_isValidAngle (u : CoordUnits) (c : Coord) :
    CoordUnits.check u c = isValidAngle u c := by
  cases u <;> cases c <;> rfl

theorem withGeodetic_post (st : HeaderStore) (df : DataFormat) (cu : CoordUnits)
    (ct : CoordType) (db : DataBounds)
    (h : DataBounds.withGeodetic st df cu ct = .ok db) :
    boundsVariantMatches df .Geodetic db = true ∧
    validateBoundsCoords cu db = .ok () := by
  unfold DataBounds.withGeodetic at h
  repeat' split at h
  all_goals try exact Except.noConfusion h
  all_goals injection h with h
  all_goals
    subst h
    refine ⟨rfl, ?_⟩
    simp_all [validateBoundsCoords, ← check_eq_isValidAngle]

theorem withProjected_post (st : HeaderStore) (df : DataFormat) (cu : CoordUnits)
    (ct : CoordType) (db : DataBounds)
    (h : DataBounds.withProjected st df cu ct = .ok db) :
    boundsVariantMatches df .Projected db = true ∧
    validateBoundsCoords cu db = .ok () := by
  unfold DataBounds.withProjected at h
  repeat' split at h
  all_goals try exact Except.noConfusion h
  all_goals injection h with h
  all_goals
    subst h
    refine ⟨rfl, ?_⟩
    simp_all [validateBoundsCoords, ← check_eq_isValidAngle]

theorem parseIsgFormatField_post (slot : Option Token) (s : String)
    (h : parseIsgFormatField slot = .ok s) : s = "2.0" := by
  unfold parseIsgFormatField at h
  repeat' split at h
  all_goals try exact Except.noConfusion h
  all_goals injection h with h
  all_goals simp_all

theorem resolveBounds_post (st : HeaderStore) (df : DataFormat) (cu : CoordUnits)
    (ct : CoordType) (db : DataBounds)
    (h : resolveBounds st df cu ct = .ok db) :
    boundsVariantMatches df ct db = true ∧
    validateBoundsCoords cu db = .ok () := by
  cases ct
  · exact withGeodetic_post st df cu .Geodetic db h
  · exact withProjected_post st df cu .Projected db h

theorem header_post (st : HeaderStore) (h : Header)
    (hok : st.header = .ok h) :
    h.ISG_format = "2.0" ∧
    boundsVariantMatches h.data_format h.coord_type h.data_bounds = true ∧
    validateBoundsCoords h.coord_units h.data_bounds = .ok () := by
  unfold HeaderStore.header at hok
  repeat' split at hok
  all_goals try exact Except.noConfusion hok
  all_goals injection hok with hok
  all_goals subst hok
  refine ⟨?_, ?_, ?_⟩
  · exact parseIsgFormatField_post _ _ (by assumption)
  · exact (resolveBounds_post _ _ _ _ _ (by assumption)).1
  · exact (resolveBounds_post _ _ _ _ _ (by assumption)).2

theorem header_validate_of_post (h : Header)
    (h1 : h.ISG_format = "2.0")
    (h2 : boundsVariantMatches h.data_format h.coord_type h.data_bounds = true)
    (h3 : validateBoundsCoords h.coord_units h.data_bounds = .ok ()) :
    h.validate = .ok () := by
  unfold Header.validate
  rw [if_neg (by simp [h1]), if_neg (by simp [h2]), h3]

theorem validateGridRows_ok (ncols : Nat) :
    ∀ rows, (∀ r ∈ rows, List.length r = ncols) → validateGridRows ncols rows = .ok () := by
  intro rows
  induction rows with
  | nil => intro _; rfl
  | cons r rs ih =>
    intro hlen
    unfold validateGridRows
    rw [if_neg (by simp [hlen r (List.mem_cons_self r rs)])]
    exact ih fun u hu => hlen u (List.mem_cons_of_mem _ hu)

theorem validateSparseCoords_ok (u : CoordUnits) :
    ∀ (ts : List (Coord × Coord × Rat)) (idx : Nat),
      (∀ t ∈ ts, isValidAngle u t.1 = true ∧ isValidAngle u t.2.1 = true) →
      validateSparseCoords u ts idx = .ok () := by
  intro ts
  induction ts with
  | nil => intro _ _; rfl
  | cons t ts ih =>
    intro idx hts
    obtain ⟨h1, h2⟩ := hts t (List.mem_cons_self t ts)
    unfold validateSparseCoords
    rw [if_neg (by simp [h1]), if_neg (by simp [h2])]
    exact ih (idx + 1) fun u hu => hts u (List.mem_cons_of_mem _ hu)

theorem parseDataGrid_post (h : Header) (lineno : Nat) (rows : List (List Token))
    (d : Data) (hok : parseDataGrid rows h lineno = .ok d) :
    ∃ g, d = .Grid g ∧ g.length = h.nrows ∧ ∀ r ∈ g, r.length = h.ncols :=
  parseDataGridGo_post h lineno rows 0 [] d hok rfl (by simp)

theorem parseDataSparse_post (h : Header) (lineno : Nat) (rows : List (List Token))
    (d : Data) (hok : parseDataSparse rows h lineno = .ok d) :
    ∃ ts, d = .Sparse ts ∧ ts.length = h.nrows ∧
      ∀ t ∈ ts, isValidAngle h.coord_units t.1 = true ∧ isValidAngle h.coord_units t.2.1 = true :=
  parseDataSparseGo_post h lineno rows 0 [] d hok rfl (by simp)

/-- C9 (amended): every document obtained from `from_str` passes
`validate`, except through the one unchecked corner: the sparse data
parser never compares `ncols` with 3, so a parsed sparse document
validates only under the extra hypothesis `ncols = 3`; grid documents
validate unconditionally. -/
theorem c9_parsed_documents_valid (s : String) (isg : ISG)
    (hok : from_str s = .ok isg)
    (hsp : ∀ ts, isg.data = Data.Sparse ts → isg.header.ncols = 3) :
    isg.validate = .ok () := by
  simp only [from_str] at hok
  repeat' split at hok
  all_goals try exact Except.noConfusion hok
  all_goals injection hok with hok
  all_goals subst hok
  all_goals obtain ⟨h1, h2, h3⟩ := header_post _ _ (by assumption)
  all_goals unfold ISG.validate
  all_goals simp only [header_validate_of_post _ h1 h2 h3]
  all_goals rename_i heqd
  all_goals split at heqd
  · obtain ⟨g, hg, hglen, hgrows⟩ := parseDataGrid_post _ _ _ _ heqd
    subst hg
    simp only [Data.validate]
    rw [if_neg (by simp [hglen])]
    exact validateGridRows_ok _ _ hgrows
  · obtain ⟨ts, ht, htlen, htcoords⟩ := parseDataSparse_post _ _ _ _ heqd
    subst ht
    have hnc : (‹Header› : Header).ncols = 3 := hsp ts rfl
    simp only [Data.validate]
    rw [if_neg (by simp [htlen]), if_neg (by simp [hnc])]
    exact validateSparseCoords_ok _ _ 0 htcoords

/-! ## Concrete documents -/

/-- Well-formed grid document whose decimals are exact at the
serializer's precision. -/
def gridText : String :=
  "created by test\n" ++ bohLine ++
"model name     : EXAMPLE
model year     : 2020
model type     : gravimetric
data type      : geoid
data units     : meters
data format    : grid
data ordering  : N-to-S, W-to-E
ref ellipsoid  : GRS80
ref frame      : ITRF2014
height datum   : ---
tide system    : mean-tide
coord type     : geodetic
coord units    : deg
map projection : ---
EPSG code      : 7912
lat min        =   39.500000
lat max        =   41.000000
lon min        =  119.500000
lon max        =  121.000000
delta lat      =    0.500000
delta lon      =    0.500000
nrows          =           2
ncols          =           3
nodata         =  -9999.0000
creation date  =  31/05/2020
ISG format     =         2.0
" ++ eohLine ++
"    1.0000     2.0000     3.0000
    4.0000 -9999.0000     6.0000
"

/-- Well-formed grid document with a cell (`0.00012`) that is not exact
at the serializer's 4-decimal precision. -/
def lossyText : String :=
  bohLine ++
"model name     : ---
model year     : ---
model type     : ---
data type      : ---
data units     : ---
data format    : grid
data ordering  : ---
ref ellipsoid  : ---
ref frame      : ---
height datum   : ---
tide system    : ---
coord type     : geodetic
coord units    : deg
map projection : ---
EPSG code      : ---
lat min        = 0.0
lat max        = 1.0
lon min        = 0.0
lon max        = 1.0
delta lat      = 1.0
delta lon      = 1.0
nrows          = 1
ncols          = 1
nodata         = ---
creation date  = ---
ISG format     = 2.0
" ++ eohLine ++
"0.00012
"

/-- Minimal well-formed grid document. -/
def minText : String :=
  bohLine ++
"model name     : ---
model year     : ---
model type     : ---
data type      : ---
data units     : ---
data format    : grid
data ordering  : ---
ref ellipsoid  : ---
ref frame      : ---
height datum   : ---
tide system    : ---
coord type     : geodetic
coord units    : deg
map projection : ---
EPSG code      : ---
lat min        = 0.0
lat max        = 1.0
lon min        = 0.0
lon max        = 1.0
delta lat      = 1.0
delta lon      = 1.0
nrows          = 1
ncols          = 1
nodata         = ---
creation date  = ---
ISG format     = 2.0
" ++ eohLine ++
"1.0
"

/-- Variant of `minText` with the `nodata` line removed and everything
else unchanged. -/
def minTextNoNodata : String :=
  bohLine ++
"model name     : ---
model year     : ---
model type     : ---
data type      : ---
data units     : ---
data format    : grid
data ordering  : ---
ref ellipsoid  : ---
ref frame      : ---
height datum   : ---
tide system    : ---
coord type     : geodetic
coord units    : deg
map projection : ---
EPSG code      : ---
lat min        = 0.0
lat max        = 1.0
lon min        = 0.0
lon max        = 1.0
delta lat      = 1.0
delta lon      = 1.0
nrows          = 1
ncols          = 1
creation date  = ---
ISG format     = 2.0
" ++ eohLine ++
"1.0
"

/-- Well-formed sparse document whose header declares `ncols = 4`. -/
def sparseText4 : String :=
  bohLine ++
"model name     : ---
model year     : ---
model type     : ---
data type      : ---
data units     : ---
data format    : sparse
data ordering  : ---
ref ellipsoid  : ---
ref frame      : ---
height datum   : ---
tide system    : ---
coord type     : geodetic
coord units    : deg
map projection : ---
EPSG code      : ---
lat min        = 0.0
lat max        = 1.0
lon min        = 0.0
lon max        = 1.0
delta lat      = ---
delta lon      = ---
nrows          = 1
ncols          = 4
nodata         = ---
creation date  = ---
ISG format     = 2.0
" ++ eohLine ++
"0.5 0.5 1.0
"

/-- Parse result of `minText`, written out. -/
def minIsg : ISG :=
  { comment := ""
    header :=
      { model_name := none, model_year := none, model_type := none, data_type := none
        data_units := none, data_format := .Grid, data_ordering := none, ref_ellipsoid := none
        ref_frame := none, height_datum := none, tide_system := none, coord_type := .Geodetic
        coord_units := .Deg, map_projection := none, EPSG_code := none
        data_bounds := .GridGeodetic (.Dec 0) (.Dec 1) (.Dec 0) (.Dec 1) (.Dec 1) (.Dec 1)
        nrows := 1, ncols := 1, nodata := none, creation_date := none, ISG_format := "2.0" }
    data := .Grid [[some 1]] }

/-! ## Round-trip (C1) -/

/-- Counterexample to C1 as stated: `lossyText` parses, but
re-parsing its serialization does not give back the same document — the
grid cell `0.00012` is rendered at fixed 4-decimal precision as
`0.0001`. -/
theorem c1_round_trip_counterexample :
    (from_str lossyText).isOk = true ∧
    (from_str lossyText).bind (fun d => from_str (to_string d)) ≠ from_str lossyText :=
  ⟨by decide, by decide⟩

/-- C1 (amended): the round trip holds in the serialize-then-parse
direction, and in the parse-then-serialize direction for documents whose
decimals are exact at the serializer's fixed precision, as on this
fixture: `gridText` parses, serializing the parse gives back `gridText`
byte-for-byte, and re-parsing that serialization gives the same
document. -/
theorem c1_round_trip :
    (from_str gridText).isOk = true ∧
    (from_str gridText).map to_string = .ok gridText ∧
    (from_str gridText).bind (fun d => from_str (to_string d)) = from_str gridText :=
  ⟨by decide, by decide, by decide⟩

/-! ## Mandatory `nodata` key (C2) -/

/-- Counterexample to C2 as stated: omitting the `nodata` key from an
otherwise well-formed header makes `from_str` fail with the
missing-header-key error naming `nodata`. -/
theorem c2_nodata_counterexample :
    from_str minTextNoNodata = .error (ParseError.missingHeader .NoData) := by
  decide

/-- C2 (amended): `nodata` is a mandatory header key with an optional
value: the key must be present (omitting it fails with
missing-header-key `nodata`), and the placeholder value `---` parses
with the header's `nodata` field absent. -/
theorem c2_nodata_optional_value :
    (from_str minText).map (fun d => d.header.nodata) = .ok none ∧
    from_str minTextNoNodata = .error ⟨.MissingHeaderKey .NoData, none, none⟩ :=
  ⟨by decide, by decide⟩

/-! ## Parsed documents and the validator (C9) -/

/-- Counterexample to C9 as stated: the sparse parser accepts
`ncols = 4`, and the validator then rejects the parsed document. -/
theorem c9_counterexample :
    (from_str sparseText4).map ISG.validate = .ok (.error ⟨.NoCols 4 none⟩) := by
  decide

/-- Witness for C9 at a concrete grid document. -/
theorem c9_parsed_documents_valid_witness :
    minIsg.validate = .ok () :=
  c9_parsed_documents_valid minText minIsg (by decide)
    (fun ts h => Data.noConfusion h)

end Libisg
